import Mathlib

/-!
# Gmail-Cleaner: classification and sender-reputation pipeline

A shallow embedding of `classifier.js`, `storage.js` and `background.js`.

* JavaScript strings are sequences of UTF-16 code units (`JSString`).
* JavaScript numbers used by the scoring code are IEEE-754 doubles; the
  non-negative finite ones are represented exactly as multiples of `2^-1074`
  (`F64`), with round-to-nearest-even addition and subtraction.
* `String.prototype.toLowerCase` is a builtin of the runtime, not code of the
  program; every definition that needs it takes it as the argument `lower`.
* Property reads on plain objects follow the prototype chain: a key that is
  not an own property of `RULES.DOMAIN_MAP` but names a member of
  `Object.prototype` yields that member (`Value.inherited`).
* The handlers are modelled in explicit state-passing style, one call at a
  time; the results of the I/O a call awaits (storage requests, the remote
  request, the clock) are supplied by an environment record. A call that finds
  its lock held stays `pending`.
* The stats queue is modelled as a transition system whose events are the
  enqueueing of an increment and the resumption of an activation of
  `updateStatsSequentially` suspended at one of its two `await`s, so that
  increments may arrive at any stage of the worker.
* The write `store.put` makes a structured clone of the record, which throws
  a `DataCloneError` when the record holds a function (`Profile.clonable`).
* Counters (`totalReceived`, `emailsAnalyzed`, `sendersGrouped`) are natural
  numbers.
-/

namespace GmailCleaner

/-! ## Strings -/

/-- A JavaScript string: its sequence of UTF-16 code units. -/
abbrev JSString := List Nat

/-- UTF-16 code units of one Unicode scalar value. -/
def utf16 (c : Char) : List Nat :=
  if c.toNat < 0x10000 then [c.toNat]
  else [0xD800 + (c.toNat - 0x10000) / 0x400, 0xDC00 + (c.toNat - 0x10000) % 0x400]

/-- The JavaScript string denoted by a string literal. -/
def js (s : String) : JSString := s.toList.flatMap utf16

/-- Whether `pat` occurs in `s` starting at its first code unit. -/
def startsWith : JSString → JSString → Bool
  | _, [] => true
  | [], _ :: _ => false
  | c :: cs, p :: ps => c == p && startsWith cs ps

/-- The method `String.prototype.includes`: `pat` occurs somewhere in `s`. -/
def includes : JSString → JSString → Bool
  | [], pat => startsWith [] pat
  | c :: cs, pat => startsWith (c :: cs) pat || includes cs pat

/-- The method `String.prototype.split` with a one-code-unit separator. -/
def split (sep : Nat) : JSString → List JSString
  | [] => [[]]
  | c :: cs =>
    if c = sep then [] :: split sep cs
    else
      match split sep cs with
      | [] => [[c]]
      | seg :: rest => (c :: seg) :: rest

/-- Code unit of `@`. -/
def atSign : Nat := 64

/-- The expression `s.split('@')[1]`; `none` stands for `undefined`. -/
def splitAt1 (s : JSString) : Option JSString := (split atSign s)[1]?

/-! ## Values -/

/-- The members of `CLASSIFICATION_TYPES`. -/
inductive Category
  | Personal | Work | Transactional | Subscription | Promotion | Spam
  deriving DecidableEq, Repr

/-- The string value of a member of `CLASSIFICATION_TYPES`. -/
def Category.text : Category → JSString
  | .Personal => js "Personal"
  | .Work => js "Work"
  | .Transactional => js "Transactional"
  | .Subscription => js "Subscription"
  | .Promotion => js "Promotion"
  | .Spam => js "Spam"

/-- JavaScript values that flow through the pipeline. `inherited key` is the
member that a plain object inherits from `Object.prototype` under `key` (a
builtin function, or the prototype object itself for `__proto__`); `object` is
any other non-null object. -/
inductive Value
  | undefined
  | null
  | bool (b : Bool)
  | number (q : ℚ)
  | string (s : JSString)
  | inherited (key : JSString)
  | object (id : Nat)
  deriving DecidableEq, Repr

/-- The value of a category constant. -/
def Value.category (c : Category) : Value := .string c.text

/-- JavaScript truthiness (`ToBoolean`). -/
def Value.truthy : Value → Bool
  | .undefined => false
  | .null => false
  | .bool b => b
  | .number q => q != 0
  | .string s => !s.isEmpty
  | .inherited _ => true
  | .object _ => true

/-- The operator `a || b`. -/
def Value.or (a b : Value) : Value := if a.truthy then a else b

/-! ## IEEE-754 doubles (non-negative, finite) -/

/-- A non-negative finite double `x`, represented by the natural number
`x * 2^1074`. -/
abbrev F64 := Nat

/-- The least `k < 2048` such that `n >>> k` has at most 53 bits: the number
of low bits to drop when rounding `n` to a 53-bit significand. -/
def dropCount (n : Nat) : Nat :=
  [1024, 512, 256, 128, 64, 32, 16, 8, 4, 2, 1].foldl
    (fun k s => if n >>> (k + s - 1) < 2 ^ 53 then k else k + s) 0

/-- Round a natural number to 53 significant bits, ties to even. -/
def round53 (n : Nat) : Nat :=
  let k := dropCount n
  if k = 0 then n
  else
    let q := n >>> k
    let r := n - (q <<< k)
    let half := 1 <<< (k - 1)
    if r > half ∨ (r = half ∧ q % 2 = 1) then (q + 1) <<< k else q <<< k

/-- Double addition. -/
def F64.add (a b : F64) : F64 := round53 (a + b)

/-- Double subtraction, for `b ≤ a`. -/
def F64.sub (a b : F64) : F64 := round53 (a - b)

/-- The double denoted by the decimal literal `num / den`: the quotient is
computed with two guard bits (the second one sticky) and rounded. -/
def F64.lit (num den : Nat) : F64 :=
  let scaled := num <<< 1076
  let t := scaled / den
  let sticky := if scaled % den = 0 then 0 else 1
  round53 (t ||| sticky) >>> 2

/-! ## classifier.js -/

/-- A detection event: `headers` is `none` when the property is `undefined`
or `null`, otherwise the own properties of the headers object. -/
structure EmailData where
  sender : JSString
  subject : JSString
  body : JSString
  headers : Option (List (JSString × Value))
  deriving DecidableEq, Repr

/-- The own properties of `RULES.DOMAIN_MAP`, in source order. -/
def RULES.DOMAIN_MAP : List (JSString × Category) :=
  [ (js "amazon.com", .Transactional),
    (js "stripe.com", .Transactional),
    (js "paypal.com", .Transactional),
    (js "substack.com", .Subscription),
    (js "medium.com", .Subscription),
    (js "linkedin.com", .Promotion),
    (js "facebookmail.com", .Promotion),
    (js "twitter.com", .Promotion),
    (js "no-reply@", .Transactional) ]

/-- The constant `RULES.HEADER_SIGNALS.LIST_UNSUBSCRIBE`. -/
def RULES.HEADER_SIGNALS.LIST_UNSUBSCRIBE : JSString := js "List-Unsubscribe"

/-- The list `RULES.KEYWORDS.TRANSACTIONAL`. -/
def RULES.KEYWORDS.TRANSACTIONAL : List JSString :=
  [js "receipt", js "invoice", js "order", js "receipt", js "confirmation", js "otp",
   js "bill", js "statement"]

/-- The list `RULES.KEYWORDS.PROMOTION`. -/
def RULES.KEYWORDS.PROMOTION : List JSString :=
  [js "sale", js "discount", js "off", js "limited time", js "price", js "deal",
   js "offer", js "exclusive"]

/-- Property names that every plain object inherits from `Object.prototype`. -/
def objectPrototypeKeys : List JSString :=
  [ js "constructor", js "__defineGetter__", js "__defineSetter__", js "hasOwnProperty",
    js "__lookupGetter__", js "__lookupSetter__", js "isPrototypeOf",
    js "propertyIsEnumerable", js "toString", js "valueOf", js "__proto__",
    js "toLocaleString" ]

/-- Conversion of a property key to a string: `undefined` becomes the key
`"undefined"`. -/
def propertyKey : Option JSString → JSString
  | none => js "undefined"
  | some k => k

/-- The expression `RULES.DOMAIN_MAP[domain]`: an own property if there is
one, else the member inherited from `Object.prototype`, else `undefined`. -/
def domainMapGet (domain : Option JSString) : Value :=
  match RULES.DOMAIN_MAP.lookup (propertyKey domain) with
  | some c => .category c
  | none =>
    if propertyKey domain ∈ objectPrototypeKeys then .inherited (propertyKey domain)
    else .undefined

/-- The expression `headers && headers[key]`, as a condition. -/
def headerSignal (headers : Option (List (JSString × Value))) (key : JSString) : Bool :=
  match headers with
  | none => false
  | some hs =>
    match hs.lookup key with
    | none => false
    | some v => v.truthy

/-- The record returned by `extractFeatures`. -/
structure Features where
  hasUnsubscribe : Bool
  isHtml : Bool
  length : Nat
  hasPromoKeywords : Bool
  hasTransactionalKeywords : Bool
  deriving DecidableEq, Repr

/-- The string `(subject + ' ' + body).toLowerCase()`. -/
def contentOf (lower : JSString → JSString) (emailData : EmailData) : JSString :=
  lower (emailData.subject ++ js " " ++ emailData.body)

/-- The function `extractFeatures`. -/
def extractFeatures (lower : JSString → JSString) (emailData : EmailData) : Features :=
  let content := contentOf lower emailData
  { hasUnsubscribe := includes content (js "unsubscribe") || includes content (js "opt out")
    isHtml := includes emailData.body (js "<") && includes emailData.body (js ">")
    length := content.length
    hasPromoKeywords := RULES.KEYWORDS.PROMOTION.any (fun kw => includes content kw)
    hasTransactionalKeywords :=
      RULES.KEYWORDS.TRANSACTIONAL.any (fun kw => includes content kw) }

/-- The keys of the `probabilities` object. -/
inductive ProbKey
  | TRANSACTIONAL | PROMOTION | SUBSCRIPTION | PERSONAL
  deriving DecidableEq, Repr

/-- The `probabilities` object. -/
structure Probabilities where
  TRANSACTIONAL : F64
  PROMOTION : F64
  SUBSCRIPTION : F64
  PERSONAL : F64
  deriving DecidableEq, Repr

/-- Property read `probabilities[k]`. -/
def Probabilities.get (p : Probabilities) : ProbKey → F64
  | .TRANSACTIONAL => p.TRANSACTIONAL
  | .PROMOTION => p.PROMOTION
  | .SUBSCRIPTION => p.SUBSCRIPTION
  | .PERSONAL => p.PERSONAL

/-- The lookup `CLASSIFICATION_TYPES[winner]`. -/
def CLASSIFICATION_TYPES : ProbKey → Category
  | .TRANSACTIONAL => .Transactional
  | .PROMOTION => .Promotion
  | .SUBSCRIPTION => .Subscription
  | .PERSONAL => .Personal

/-- The scores after the four adjustments of `classify`. -/
def adjust (features : Features) : Probabilities :=
  let p0 : Probabilities :=
    { TRANSACTIONAL := F64.lit 1 10, PROMOTION := F64.lit 1 10,
      SUBSCRIPTION := F64.lit 1 10, PERSONAL := F64.lit 7 10 }
  let p1 : Probabilities :=
    if features.hasUnsubscribe then
      { p0 with
        SUBSCRIPTION := F64.add p0.SUBSCRIPTION (F64.lit 4 10)
        PROMOTION := F64.add p0.PROMOTION (F64.lit 2 10)
        PERSONAL := F64.sub p0.PERSONAL (F64.lit 3 10) }
    else p0
  let p2 : Probabilities :=
    if features.hasPromoKeywords then
      { p1 with PROMOTION := F64.add p1.PROMOTION (F64.lit 5 10) }
    else p1
  let p3 : Probabilities :=
    if features.hasTransactionalKeywords then
      { p2 with TRANSACTIONAL := F64.add p2.TRANSACTIONAL (F64.lit 5 10) }
    else p2
  if features.length > 500 then
    { p3 with SUBSCRIPTION := F64.add p3.SUBSCRIPTION (F64.lit 2 10) }
  else p3

/-- The reduction `Object.keys(probabilities).reduce((a, b) =>
probabilities[a] > probabilities[b] ? a : b)`: the keys are visited in
insertion order and the first one seeds the accumulator. -/
def winner (p : Probabilities) : ProbKey :=
  [ProbKey.PROMOTION, ProbKey.SUBSCRIPTION, ProbKey.PERSONAL].foldl
    (fun a b => if p.get a > p.get b then a else b) ProbKey.TRANSACTIONAL

/-- The function `classify`. -/
def classify (lower : JSString → JSString) (emailData : EmailData) : Value :=
  let domain := splitAt1 emailData.sender
  if (domainMapGet domain).truthy then domainMapGet domain
  else if headerSignal emailData.headers RULES.HEADER_SIGNALS.LIST_UNSUBSCRIBE then
    .category .Subscription
  else
    let features := extractFeatures lower emailData
    .category (CLASSIFICATION_TYPES (winner (adjust features)))

/-- ASCII case folding: it agrees with `toLowerCase` on strings all of whose
code units are below 128, and instantiates `lower` on concrete inputs. -/
def asciiLower (s : JSString) : JSString :=
  s.map (fun c => if 65 ≤ c ∧ c ≤ 90 then c + 32 else c)

/-! ### The scoring rule in the words of the specification -/

/-- The documented score of a category, in exact decimal arithmetic: the
priors 0.7 / 0.1 / 0.1 / 0.1 and the additive adjustments. -/
def specScore (f : Features) : Category → ℚ
  | .Personal => 7 / 10 - (if f.hasUnsubscribe then 3 / 10 else 0)
  | .Transactional => 1 / 10 + (if f.hasTransactionalKeywords then 5 / 10 else 0)
  | .Promotion =>
    1 / 10 + (if f.hasUnsubscribe then 2 / 10 else 0)
      + (if f.hasPromoKeywords then 5 / 10 else 0)
  | .Subscription =>
    1 / 10 + (if f.hasUnsubscribe then 4 / 10 else 0)
      + (if f.length > 500 then 2 / 10 else 0)
  | .Work => 0
  | .Spam => 0

/-- The scored categories in the documented enumeration order. -/
def specOrder : List Category :=
  [.Transactional, .Promotion, .Subscription, .Personal]

/-- The documented argmax: the first category in enumeration order whose
score is at least every other score. -/
def specArgmax (f : Features) : Option Category :=
  specOrder.find? (fun c => specOrder.all (fun c' => decide (specScore f c' ≤ specScore f c)))

/-! ## storage.js -/

/-- A record of the object store. Optional properties (`userOverride`,
`lastAction`, `unsubscribed`) hold `undefined` while absent. -/
structure Profile where
  email : JSString
  sender_domain : JSString
  totalReceived : Nat
  opened : Nat
  deleted : Nat
  lastInteraction : Nat
  classification : Value
  purpose : Value
  topic : Value
  sender_type : Value
  confidence : Value
  userOverride : Value
  lastAction : Value
  unsubscribed : Value
  deriving DecidableEq, Repr

/-- Errors that can reach the caller of a handler. -/
inductive Error
  /-- The error of a rejected IndexedDB open or request. -/
  | storage (code : Nat)
  /-- A property read on `null`. -/
  | typeError
  /-- The structured clone made by `store.put` met a value it cannot clone. -/
  | dataCloneError
  deriving DecidableEq, Repr

/-- Whether the structured clone made by `store.put` accepts a value.
Functions are refused; of the members inherited from `Object.prototype` all
are functions except `__proto__`, which reads the prototype object. -/
def Value.clonable : Value → Bool
  | .inherited key => key == js "__proto__"
  | _ => true

/-- Whether the structured clone made by `store.put` accepts a record. A record
read from the store is a clone already, and `lastAction` and `unsubscribed`
are only ever assigned a string and `true`; the properties checked are those
to which a code path assigns a computed value. -/
def Profile.clonable (p : Profile) : Bool :=
  p.classification.clonable && p.purpose.clonable && p.topic.clonable &&
    p.sender_type.clonable && p.confidence.clonable && p.userOverride.clonable

/-- The object store `senderProfiles`, whose key path is `email`. -/
abbrev Store := List Profile

/-- The request `store.get(email)`. -/
def Store.get (db : Store) (email : JSString) : Option Profile :=
  db.find? (fun p => p.email == email)

/-- The request `store.put(profile)`: the record replaces the one stored under
the same key. -/
def Store.put (db : Store) (profile : Profile) : Store :=
  profile :: db.filter (fun p => p.email != profile.email)

/-- The default record materialised by `getSenderProfile` on a miss; `now` is
the reading of `Date.now()`. -/
def defaultProfile (email : JSString) (now : Nat) : Profile :=
  { email := email
    sender_domain := (splitAt1 email).getD []
    totalReceived := 0
    opened := 0
    deleted := 0
    lastInteraction := now
    classification := .null
    purpose := .null
    topic := .null
    sender_type := .null
    confidence := .number 0
    userOverride := .undefined
    lastAction := .undefined
    unsubscribed := .undefined }

/-- The function `getSenderProfile`: `fault` is the error with which opening the
database or the get request fails, if it does. -/
def getSenderProfile (db : Store) (email : JSString) (fault : Option Error) (now : Nat) :
    Except Error Profile :=
  match fault with
  | some err => .error err
  | none => .ok ((db.get email).getD (defaultProfile email now))

/-- The function `updateSenderProfile`: `fault` is the error with which opening
the database or the put request fails, if it does. With a working database,
`store.put` clones the record and throws a `DataCloneError` when the record
holds a value that cannot be cloned; the promise then rejects with it and
nothing is written. -/
def updateSenderProfile (db : Store) (profile : Profile) (fault : Option Error) :
    Except Error Store :=
  match fault with
  | some err => .error err
  | none => if profile.clonable then .ok (db.put profile) else .error .dataCloneError

/-! ## background.js: locks and handlers -/

/-- How a call of an asynchronous handler ends: it stays suspended, its
promise rejects, or its promise resolves. -/
inductive Completion (α : Type)
  | pending
  | threw (err : Error)
  | returned (value : α)
  deriving DecidableEq, Repr

/-- Module state shared by the handlers: the keys of `profileLocks` mapped to
`true`, and the object store. -/
structure World where
  profileLocks : List JSString
  senderProfiles : Store
  deriving DecidableEq, Repr

/-- The function `acquireLock`: while the key is held the loop keeps polling
(`none`); otherwise the key is set. -/
def acquireLock (profileLocks : List JSString) (email : JSString) : Option (List JSString) :=
  if email ∈ profileLocks then none else some (email :: profileLocks)

/-- The function `releaseLock`. -/
def releaseLock (profileLocks : List JSString) (email : JSString) : List JSString :=
  profileLocks.filter (fun k => k != email)

/-- The value of `mlResults`: `null`, or the four properties read from any
other value (`undefined` where the value has no such property). -/
inductive MlResults
  | null
  | fields (purpose topic sender_type confidence : Value)
  deriving DecidableEq, Repr

/-- What the remote request of `handleEmailDetected` does. -/
inductive RemoteOutcome
  /-- The call of `fetch` rejects: network error, or abort after 3000 ms. -/
  | fetchRejected
  /-- The call of `response.json()` rejects. -/
  | jsonRejected
  /-- The body parses to a JSON value; the response status is never read. -/
  | parsed (body : MlResults)
  deriving DecidableEq, Repr

/-- Results of the I/O awaited by one call of `handleEmailDetected`. -/
structure DetectionEnv where
  getFault : Option Error
  created : Nat
  remote : RemoteOutcome
  now : Nat
  putFault : Option Error
  deriving DecidableEq, Repr

/-- The initial value of `mlResults`. -/
def MlResults.initial : MlResults := .fields .null .null .null (.number 0)

/-- Lines 113 to 138 of `handleEmailDetected`: the values of `classification`
and `mlResults` after the override check and the guarded remote request. A
`null` body is assigned to `mlResults` before the read of `mlResults.purpose`
throws into the `catch` block. -/
def classifyDetected (lower : JSString → JSString) (emailData : EmailData)
    (profile : Profile) (remote : RemoteOutcome) : Value × MlResults :=
  if profile.userOverride.truthy then (profile.userOverride, MlResults.initial)
  else
    match remote with
    | .fetchRejected => (classify lower emailData, MlResults.initial)
    | .jsonRejected => (classify lower emailData, MlResults.initial)
    | .parsed .null => (classify lower emailData, .null)
    | .parsed (.fields purpose topic sender_type confidence) =>
      (purpose, .fields purpose topic sender_type confidence)

/-- Lines 140 to 147 of `handleEmailDetected`: the flag `isNewSender` and the
mutated profile; reading `mlResults.purpose` throws when `mlResults` is
`null`. -/
def mutateProfile (profile : Profile) (classification : Value) (mlResults : MlResults)
    (now : Nat) : Except Error (Bool × Profile) :=
  match mlResults with
  | .null => .error .typeError
  | .fields purpose topic sender_type confidence =>
    .ok (profile.totalReceived == 0,
      { profile with
        totalReceived := profile.totalReceived + 1
        lastInteraction := now
        classification := classification
        purpose := purpose.or classification
        topic := topic
        sender_type := sender_type
        confidence := confidence })

/-- The effect of one call of `handleEmailDetected`: the module state it
leaves, how it ends (with the `classification` of the returned object), and
the `isNewSender` flag it pushes onto `statsQueue`, if it reaches line 152. -/
structure Detected where
  world : World
  completion : Completion Value
  statsPush : Option Bool
  deriving DecidableEq, Repr

/-- The `try` block of `handleEmailDetected`, run on the store. -/
def detectionBody (lower : JSString → JSString) (db : Store) (emailData : EmailData)
    (env : DetectionEnv) : Store × Completion Value × Option Bool :=
  match getSenderProfile db emailData.sender env.getFault env.created with
  | .error err => (db, .threw err, none)
  | .ok profile =>
    let (classification, mlResults) := classifyDetected lower emailData profile env.remote
    match mutateProfile profile classification mlResults env.now with
    | .error err => (db, .threw err, none)
    | .ok (isNewSender, profile1) =>
      match updateSenderProfile db profile1 env.putFault with
      | .error err => (db, .threw err, none)
      | .ok db1 => (db1, .returned classification, some isNewSender)

/-- The function `handleEmailDetected`: acquire the lock, run the `try`
block, release the lock in the `finally` block. -/
def handleEmailDetected (lower : JSString → JSString) (w : World) (emailData : EmailData)
    (env : DetectionEnv) : Detected :=
  match acquireLock w.profileLocks emailData.sender with
  | none => { world := w, completion := .pending, statsPush := none }
  | some locks =>
    let (db, completion, push) := detectionBody lower w.senderProfiles emailData env
    { world := { profileLocks := releaseLock locks emailData.sender, senderProfiles := db }
      completion := completion
      statsPush := push }

/-- Consecutive calls of `handleEmailDetected`, each started in the state
left by the one before. -/
def handleAll (lower : JSString → JSString) :
    World → List (EmailData × DetectionEnv) → List Detected
  | _, [] => []
  | w, (emailData, env) :: rest =>
    let d := handleEmailDetected lower w emailData env
    d :: handleAll lower d.world rest

/-- The state left by a run of consecutive calls. -/
def finalWorld (w : World) : List Detected → World
  | [] => w
  | d :: ds => finalWorld d.world ds

/-- The counter `totalReceived` of the profile that `getSenderProfile` hands
out for a key: the stored one, or 0 for a sender not seen before. -/
def receivedCount (db : Store) (email : JSString) : Nat :=
  ((db.get email).map (fun p => p.totalReceived)).getD 0

/-- The function `setOverride`. -/
def setOverride (db : Store) (email : JSString) (classification : Value)
    (getFault : Option Error) (now : Nat) (putFault : Option Error) : Except Error Store :=
  match getSenderProfile db email getFault now with
  | .error err => .error err
  | .ok profile => updateSenderProfile db { profile with userOverride := classification } putFault

/-- The message data of `PERFORM_ACTION`. -/
structure ActionData where
  email : JSString
  action : JSString
  deriving DecidableEq, Repr

/-- Results of the I/O awaited by one call of `handlePerformAction`. -/
structure ActionEnv where
  getFault : Option Error
  created : Nat
  putFault : Option Error
  deriving DecidableEq, Repr

/-- The function `handlePerformAction`; the result is the `success` flag of
the returned object. -/
def handlePerformAction (w : World) (data : ActionData) (env : ActionEnv) :
    World × Completion Bool :=
  match getSenderProfile w.senderProfiles data.email env.getFault env.created with
  | .error err => (w, .threw err)
  | .ok profile =>
    let profile1 := { profile with lastAction := .string data.action }
    let profile2 :=
      if data.action = js "UNSUBSCRIBE" then { profile1 with unsubscribed := .bool true }
      else profile1
    match updateSenderProfile w.senderProfiles profile2 env.putFault with
    | .error err => (w, .threw err)
    | .ok db => ({ w with senderProfiles := db }, .returned true)

/-! ## background.js: the stats queue -/

/-- The object stored under the key `stats`. -/
structure Stats where
  emailsAnalyzed : Nat
  sendersGrouped : Nat
  deriving DecidableEq, Repr

/-- An activation of `updateStatsSequentially` suspended at one of its two
`await`s: before the read resolves it holds the dequeued `incrementData`,
before the write resolves it holds the updated `stats`. -/
inductive Worker
  | awaitingGet (isNewSender : Bool)
  | awaitingSet (stats : Stats)
  deriving DecidableEq, Repr

/-- The state of the stats aggregator: the flag, the queue, the value stored
under `stats` (`none` for `undefined`) and the suspended activations. -/
structure Aggregator where
  isUpdatingStats : Bool
  statsQueue : List Bool
  stored : Option Stats
  workers : List Worker
  deriving DecidableEq, Repr

/-- The module state at start-up, over a given stored snapshot. -/
def Aggregator.initial (stored : Option Stats) : Aggregator :=
  { isUpdatingStats := false, statsQueue := [], stored := stored, workers := [] }

/-- A call of `updateStatsSequentially`, up to its first `await`: it returns
at once when the flag is set or the queue is empty, and otherwise sets the
flag, shifts the queue and suspends on the read. -/
def updateStatsSequentially (a : Aggregator) : Aggregator :=
  if a.isUpdatingStats then a
  else
    match a.statsQueue with
    | [] => a
    | incrementData :: rest =>
      { a with
        isUpdatingStats := true
        statsQueue := rest
        workers := a.workers ++ [.awaitingGet incrementData] }

/-- Lines 90 to 95: the snapshot read (or the zero default) with
`emailsAnalyzed` incremented, and `sendersGrouped` too for a new sender. -/
def bump (result : Option Stats) (isNewSender : Bool) : Stats :=
  let stats := result.getD { emailsAnalyzed := 0, sendersGrouped := 0 }
  { emailsAnalyzed := stats.emailsAnalyzed + 1
    sendersGrouped := if isNewSender then stats.sendersGrouped + 1 else stats.sendersGrouped }

/-- Resumption of the suspended activation number `i`. After the read it
computes the new snapshot and suspends on the write; after the write (which
lands in storage) it clears the flag and calls `updateStatsSequentially`
again. -/
def Aggregator.resume (a : Aggregator) (i : Nat) : Option Aggregator :=
  match a.workers[i]? with
  | none => none
  | some (.awaitingGet isNewSender) =>
    some { a with workers := a.workers.set i (.awaitingSet (bump a.stored isNewSender)) }
  | some (.awaitingSet stats) =>
    some (updateStatsSequentially
      { a with stored := some stats, isUpdatingStats := false, workers := a.workers.eraseIdx i })

/-- Lines 152 and 153 of `handleEmailDetected`: push an increment and call
`updateStatsSequentially`. -/
def Aggregator.enqueue (a : Aggregator) (isNewSender : Bool) : Aggregator :=
  updateStatsSequentially { a with statsQueue := a.statsQueue ++ [isNewSender] }

/-- The events of the aggregator: an increment is enqueued, or the awaited
storage operation of a suspended activation resolves. -/
inductive AggEvent
  | enqueue (isNewSender : Bool)
  | resume (i : Nat)
  deriving DecidableEq, Repr

/-- One event; `none` when no activation number `i` is suspended. -/
def Aggregator.step (a : Aggregator) : AggEvent → Option Aggregator
  | .enqueue isNewSender => some (a.enqueue isNewSender)
  | .resume i => a.resume i

/-- A schedule of events, run from left to right. -/
def Aggregator.run (a : Aggregator) : List AggEvent → Option Aggregator
  | [] => some a
  | ev :: rest =>
    match a.step ev with
    | none => none
    | some a1 => a1.run rest

/-- The increments enqueued by a schedule, in order. -/
def enqueued : List AggEvent → List Bool
  | [] => []
  | .enqueue isNewSender :: rest => isNewSender :: enqueued rest
  | .resume _ :: rest => enqueued rest

/-- The snapshot a reader of `stats` sees: the stored object, or the zero
default when nothing is stored. -/
def Aggregator.snapshot (a : Aggregator) : Stats :=
  a.stored.getD { emailsAnalyzed := 0, sendersGrouped := 0 }

/-- The queue is drained and no activation is in flight. -/
def Aggregator.Drained (a : Aggregator) : Prop :=
  a.statsQueue = [] ∧ a.workers = []

/-- The features that the scoring reads, with the length reduced to which side
of 500 it lies on. -/
def Features.canon (f : Features) : Features :=
  { f with isHtml := false, length := if f.length > 500 then 501 else 0 }

/-- An interleaving that the event loop allows, on the store: a detection call
holds the sender's lock, has read the profile (line 110) and awaits the remote
request; a `PERFORM_ACTION` message is handled to completion meanwhile; then
the detection call resumes, mutates the profile it read and writes it. -/
def actionDuringDetection (lower : JSString → JSString) (db : Store) (emailData : EmailData)
    (env : DetectionEnv) (data : ActionData) (actionEnv : ActionEnv) : Except Error Store :=
  match getSenderProfile db emailData.sender env.getFault env.created with
  | .error err => .error err
  | .ok profile =>
    let w1 :=
      (handlePerformAction { profileLocks := [emailData.sender], senderProfiles := db }
        data actionEnv).1
    let (classification, mlResults) := classifyDetected lower emailData profile env.remote
    match mutateProfile profile classification mlResults env.now with
    | .error err => .error err
    | .ok (_, profile1) => updateSenderProfile w1.senderProfiles profile1 env.putFault

/-- Whether a call resolved. -/
def Completion.isReturned {α : Type} : Completion α → Bool
  | .returned _ => true
  | _ => false

/-- The flags pushed by `n` consecutive calls for one sender whose counter
starts at `prior`. -/
def flagsFrom : Nat → Nat → List (Option Bool)
  | _, 0 => []
  | prior, n + 1 => some (prior == 0) :: flagsFrom (prior + 1) n

/-! ## Accounting of the stats queue -/

/-- The snapshot after a list of increments has been applied in order. -/
def applyAll (s : Stats) (flags : List Bool) : Stats :=
  flags.foldl (fun st b => bump (some st) b) s

/-- The snapshot that will be stored once the work in flight and the queued
increments have been applied. -/
def Aggregator.projected (a : Aggregator) : Stats :=
  match a.workers with
  | [] => applyAll a.snapshot a.statsQueue
  | .awaitingGet isNewSender :: _ => applyAll (bump a.stored isNewSender) a.statsQueue
  | .awaitingSet stats :: _ => applyAll stats a.statsQueue

/-- The discipline kept by the flag: either the flag is set and exactly one
activation is suspended, or the flag is clear, nothing is suspended and the
queue is empty. -/
def Aggregator.Inv (a : Aggregator) : Prop :=
  (a.isUpdatingStats = true ∧ a.workers.length = 1) ∨
  (a.isUpdatingStats = false ∧ a.workers = [] ∧ a.statsQueue = [])

/-! ## Concrete inputs -/

/-- The state at start-up: no lock held, empty store. -/
def World.empty : World := { profileLocks := [], senderProfiles := [] }

/-- The state after `setOverride("x@y.com", "Work")` on the empty store. -/
def overrideWorld : World :=
  { profileLocks := []
    senderProfiles :=
      match setOverride [] (js "x@y.com") (.category .Work) none 100 none with
      | .ok db => db
      | .error _ => [] }

/-- A detection event from `x@y.com` with promotional wording. -/
def promoEvent : EmailData :=
  { sender := js "x@y.com"
    subject := js "Big SALE"
    body := js "50% off, limited time deal"
    headers := some [] }

/-- An environment in which both storage requests succeed. -/
def calmEnv (remote : RemoteOutcome) : DetectionEnv :=
  { getFault := none, created := 200, remote := remote, now := 300, putFault := none }

/-- An environment in which the profile write is rejected. -/
def putFailsEnv : DetectionEnv :=
  { getFault := none, created := 200, remote := .fetchRejected, now := 300,
    putFault := some (.storage 7) }

/-- Two detection events for `x@y.com` processed one after the other: the
remote request of the first is rejected, the second is answered. -/
def twoCalls : List (EmailData × DetectionEnv) :=
  [ (promoEvent, calmEnv .fetchRejected),
    (promoEvent, calmEnv (.parsed (.fields (.string (js "Promotion")) (.string (js "retail"))
      (.string (js "brand")) (.number 1)))) ]

/-- A schedule of the stats queue: three increments arrive while the worker is
at different stages, and the worker runs until the queue is drained. -/
def mixedSchedule : List AggEvent :=
  [ .enqueue true, .enqueue false, .resume 0, .enqueue true, .resume 0, .resume 0,
    .resume 0, .resume 0, .resume 0 ]

/-- A state in which the lock of `x@y.com` is held by a detection call in
flight. -/
def lockedWorld : World := { profileLocks := [js "x@y.com"], senderProfiles := [] }

/-- The action message `UNSUBSCRIBE` for `x@y.com`. -/
def unsubscribeAction : ActionData := { email := js "x@y.com", action := js "UNSUBSCRIBE" }

/-- An environment in which both storage requests of the action succeed. -/
def calmActionEnv : ActionEnv := { getFault := none, created := 250, putFault := none }


/-- A detection event whose sender domain `constructor` is no key of the
domain table, and which carries a `List-Unsubscribe` header. -/
def inheritedKeyEventWithHeader : EmailData :=
  { sender := js "x@constructor"
    subject := js "Weekly digest"
    body := js "Hello"
    headers := some [(js "List-Unsubscribe", .string (js "<mailto:leave@lists.example>"))] }

/-- A detection event whose sender domain `constructor` is no key of the
domain table, with an empty headers object. -/
def inheritedKeyEvent : EmailData :=
  { sender := js "x@constructor"
    subject := js "Lunch on Friday?"
    body := js "See you there"
    headers := some [] }

/-- The parsed body of an error response such as `{"error": "internal"}`: a
JSON object with none of the four properties. -/
def errorBody : MlResults := .fields .undefined .undefined .undefined .undefined

/-- A detection event with promotional wording and no unsubscribe phrase whose
sender domain `toString` is no key of the domain table. -/
def inheritedKeyPromoEvent : EmailData :=
  { sender := js "deals@toString"
    subject := js "Big SALE"
    body := js "50% off, limited time deal"
    headers := some [] }

/-- The worked example of the specification, from the sender text `Unknown`
that the content script sends when it finds no address. -/
def workedExample : EmailData :=
  { sender := js "Unknown"
    subject := []
    body := js "50% off, limited time deal"
    headers := some [] }

/-- A detection event from the sender text `Unknown` that carries a
`List-Unsubscribe` header. -/
def unknownSenderWithHeader : EmailData :=
  { sender := js "Unknown"
    subject := js "Weekly digest"
    body := js "Hello"
    headers := some [(js "List-Unsubscribe", .string (js "<mailto:leave@lists.example>"))] }

/-- A detection event with the empty sender, no header, an unsubscribe phrase
and promotional wording. -/
def emptySenderPromo : EmailData :=
  { sender := []
    subject := js "Big SALE"
    body := js "50% off. Unsubscribe here"
    headers := some [] }

/-! # Theorems -/

/-! ## Classifier -/

/-- Splitting a string that does not contain the separator. -/
theorem split_of_not_mem (sep : Nat) (s : JSString) (h : sep ∉ s) : split sep s = [s] := by
  induction s with
  | nil => rfl
  | cons c cs ih =>
    have hc : c ≠ sep := fun hc => h (hc ▸ List.mem_cons_self _ _)
    have hcs : sep ∉ cs := fun hm => h (List.mem_cons_of_mem _ hm)
    simp [split, hc, ih hcs]

/-- Splitting an address with exactly one separator. -/
theorem split_address (sep : Nat) (name domain : JSString) (h1 : sep ∉ name)
    (h2 : sep ∉ domain) : split sep (name ++ sep :: domain) = [name, domain] := by
  induction name with
  | nil => simp [split, split_of_not_mem sep domain h2]
  | cons c cs ih =>
    have hc : c ≠ sep := fun hc => h1 (hc ▸ List.mem_cons_self _ _)
    have hcs : sep ∉ cs := fun hm => h1 (List.mem_cons_of_mem _ hm)
    simp [split, hc, ih hcs]

/-- For an address with exactly one `@`, the expression `sender.split('@')[1]`
is the part after the `@`. -/
theorem splitAt1_address (name domain : JSString) (h1 : atSign ∉ name)
    (h2 : atSign ∉ domain) : splitAt1 (name ++ atSign :: domain) = some domain := by
  simp [splitAt1, split_address atSign name domain h1 h2]

/-- For a sender without `@`, the expression `sender.split('@')[1]` is
`undefined`. -/
theorem splitAt1_of_no_at (sender : JSString) (h : atSign ∉ sender) :
    splitAt1 sender = none := by
  simp [splitAt1, split_of_not_mem atSign sender h]

/-- Every own property of the domain table is found by the lookup. -/
theorem domainMapGet_own :
    ∀ kv ∈ RULES.DOMAIN_MAP, domainMapGet (some kv.1) = .category kv.2 := by
  decide

/-- Category constants are truthy. -/
theorem category_truthy (c : Category) : (Value.category c).truthy = true := by
  cases c <;> decide

/-- Category constants are pairwise distinct values. -/
theorem category_injective (c d : Category) (h : Value.category c = Value.category d) :
    c = d := by
  cases c <;> cases d <;> first | rfl | (exact absurd h (by decide))

/-- When the domain lookup is truthy, `classify` returns what it found. -/
theorem classify_of_lookup_truthy (lower : JSString → JSString) (emailData : EmailData)
    (h : (domainMapGet (splitAt1 emailData.sender)).truthy = true) :
    classify lower emailData = domainMapGet (splitAt1 emailData.sender) := by
  unfold classify
  simp [h]

/-- When the domain lookup finds nothing and the header signal is present,
`classify` returns Subscription. -/
theorem classify_of_header (lower : JSString → JSString) (emailData : EmailData)
    (hmap : domainMapGet (splitAt1 emailData.sender) = .undefined)
    (hsig : headerSignal emailData.headers RULES.HEADER_SIGNALS.LIST_UNSUBSCRIBE = true) :
    classify lower emailData = .category .Subscription := by
  unfold classify
  simp [hmap, hsig, Value.truthy]

/-- When the domain lookup finds nothing and the header signal is absent,
`classify` returns the winner of the scoring. -/
theorem classify_of_scoring (lower : JSString → JSString) (emailData : EmailData)
    (hmap : domainMapGet (splitAt1 emailData.sender) = .undefined)
    (hsig : headerSignal emailData.headers RULES.HEADER_SIGNALS.LIST_UNSUBSCRIBE = false) :
    classify lower emailData =
      .category (CLASSIFICATION_TYPES (winner (adjust (extractFeatures lower emailData)))) := by
  unfold classify
  simp [hmap, hsig, Value.truthy]

/-- The scores depend on the length only through the test `length > 500`. -/
theorem adjust_canon (f : Features) : adjust f.canon = adjust f := by
  unfold adjust Features.canon
  by_cases h : f.length > 500 <;> simp [h]

/-- The documented argmax depends on the length only through the test
`length > 500`. -/
theorem specArgmax_canon (f : Features) : specArgmax f.canon = specArgmax f := by
  unfold specArgmax specScore Features.canon
  by_cases h : f.length > 500 <;> simp [h]

/-- The winner of the double-precision scoring, for each combination of the
four features. -/
theorem winner_table : ∀ u p t l : Bool,
    CLASSIFICATION_TYPES (winner (adjust ⟨u, false, if l then 501 else 0, p, t⟩)) =
      (if u then
        (if p then Category.Promotion
         else if l then .Subscription else if t then .Transactional else .Subscription)
       else .Personal) := by
  decide

/-- The documented argmax in exact arithmetic, for each combination of the
four features. -/
theorem specArgmax_table : ∀ u p t l : Bool,
    specArgmax ⟨u, false, if l then 501 else 0, p, t⟩ =
      some (if u then
        (if p then Category.Promotion
         else if l then .Subscription else if t then .Transactional else .Subscription)
       else .Personal) := by
  intro u p t l
  cases u <;> cases p <;> cases t <;> cases l <;>
    norm_num [specArgmax, specScore, specOrder, List.find?, List.all]

/-- The reduction over the double-precision scores selects the documented
argmax of the exact decimal scores. -/
theorem winner_eq_specArgmax (f : Features) :
    some (CLASSIFICATION_TYPES (winner (adjust f))) = specArgmax f := by
  rw [← adjust_canon, ← specArgmax_canon]
  have h1 := winner_table f.hasUnsubscribe f.hasPromoKeywords f.hasTransactionalKeywords
    (decide (f.length > 500))
  have h2 := specArgmax_table f.hasUnsubscribe f.hasPromoKeywords f.hasTransactionalKeywords
    (decide (f.length > 500))
  simp only [decide_eq_true_eq] at h1 h2
  simp only [Features.canon]
  rw [h1, h2]

/-- Probabilistic fallback: when the domain lookup finds nothing and the header
signal is absent, `classify` returns the documented argmax. -/
theorem classify_of_scoring_eq_specArgmax (lower : JSString → JSString)
    (emailData : EmailData)
    (hmap : domainMapGet (splitAt1 emailData.sender) = .undefined)
    (hsig : headerSignal emailData.headers RULES.HEADER_SIGNALS.LIST_UNSUBSCRIBE = false) :
    (specArgmax (extractFeatures lower emailData)).map Value.category =
      some (classify lower emailData) := by
  rw [classify_of_scoring lower emailData hmap hsig, ← winner_eq_specArgmax]
  rfl

/-- C1. Domain-rule precedence: when the sender's domain `sender.split('@')[1]`
is a key of the domain table, `classify` returns the category the table maps
it to, whatever the subject, body, headers and lower-casing are. -/
theorem classify_domain_rule (lower : JSString → JSString) (emailData : EmailData)
    (domain : JSString) (c : Category)
    (hdomain : splitAt1 emailData.sender = some domain)
    (htable : (domain, c) ∈ RULES.DOMAIN_MAP) :
    classify lower emailData = .category c := by
  have hget : domainMapGet (splitAt1 emailData.sender) = .category c := by
    rw [hdomain]
    exact domainMapGet_own (domain, c) htable
  rw [classify_of_lookup_truthy lower emailData (by rw [hget]; exact category_truthy c), hget]

/-- Instance of C1 at the sender `billing@stripe.com` with promotional and
unsubscribe wording and a `List-Unsubscribe` header. -/
theorem classify_domain_rule_witness :
    classify asciiLower
      { sender := js "billing@stripe.com"
        subject := js "50% off sale"
        body := js "unsubscribe here"
        headers := some [(js "List-Unsubscribe", .string (js "yes"))] } =
      .category .Transactional :=
  classify_domain_rule asciiLower _ (js "stripe.com") .Transactional (by decide) (by decide)

/-- C2 at a failing input. The sender domain `constructor` is not a key of the
domain table and the event carries the `List-Unsubscribe` header, yet the
lookup `RULES.DOMAIN_MAP[domain]` finds the member inherited from
`Object.prototype`, and `classify` returns it instead of Subscription. -/
theorem classify_header_rule_inherited_key (lower : JSString → JSString) :
    splitAt1 inheritedKeyEventWithHeader.sender = some (js "constructor") ∧
    RULES.DOMAIN_MAP.lookup (js "constructor") = none ∧
    headerSignal inheritedKeyEventWithHeader.headers RULES.HEADER_SIGNALS.LIST_UNSUBSCRIBE
      = true ∧
    classify lower inheritedKeyEventWithHeader = .inherited (js "constructor") ∧
    classify lower inheritedKeyEventWithHeader ≠ .category .Subscription := by
  have h : classify lower inheritedKeyEventWithHeader = .inherited (js "constructor") := by
    rw [classify_of_lookup_truthy lower _ (by decide)]
    decide
  refine ⟨by decide, by decide, by decide, h, ?_⟩
  rw [h]
  decide

/-- C3 at a failing input. The sender domain `constructor` is not a key of the
domain table and there is no `List-Unsubscribe` header, yet `classify` returns
the member inherited from `Object.prototype`, which is no category at all. -/
theorem classify_scoring_inherited_key (lower : JSString → JSString) :
    splitAt1 inheritedKeyEvent.sender = some (js "constructor") ∧
    RULES.DOMAIN_MAP.lookup (js "constructor") = none ∧
    headerSignal inheritedKeyEvent.headers RULES.HEADER_SIGNALS.LIST_UNSUBSCRIBE = false ∧
    classify lower inheritedKeyEvent = .inherited (js "constructor") ∧
    ∀ c : Category, classify lower inheritedKeyEvent ≠ .category c := by
  have h : classify lower inheritedKeyEvent = .inherited (js "constructor") := by
    rw [classify_of_lookup_truthy lower _ (by decide)]
    decide
  refine ⟨by decide, by decide, by decide, h, ?_⟩
  intro c
  rw [h]
  cases c <;> decide


/-! ## Store and locks -/

/-- A record read back under a key carries that key. -/
theorem Store.get_email {db : Store} {email : JSString} {p : Profile}
    (h : db.get email = some p) : p.email = email := by
  have := List.find?_some h
  simpa using this

/-- Reading back the key just written gives the written record. -/
theorem Store.get_put_self (db : Store) (p : Profile) : (db.put p).get p.email = some p := by
  simp [Store.get, Store.put]

/-- Writing a record does not change what is stored under other keys. -/
theorem Store.get_put_other (db : Store) (p : Profile) (email : JSString)
    (h : p.email ≠ email) : (db.put p).get email = db.get email := by
  simp only [Store.get, Store.put]
  rw [List.find?_cons_of_neg _ (by simpa using h)]
  induction db with
  | nil => rfl
  | cons q db ih =>
    by_cases hq : q.email = p.email
    · have hq2 : (q.email == email) = false := by
        rw [hq]
        simpa using h
      have hq3 : (q.email != p.email) = false := by simp [hq]
      simp only [List.filter_cons, hq3, List.find?_cons, hq2, Bool.false_eq_true, if_false]
      exact ih
    · have hq3 : (q.email != p.email) = true := by simpa using hq
      simp only [List.filter_cons, hq3, if_true]
      cases hq2 : (q.email == email)
      · simp only [List.find?_cons, hq2]
        exact ih
      · simp only [List.find?_cons, hq2]

/-- The profile handed out by `getSenderProfile` carries the requested key. -/
theorem fetched_email (db : Store) (email : JSString) (now : Nat) :
    ((db.get email).getD (defaultProfile email now)).email = email := by
  cases h : db.get email with
  | none => rfl
  | some p => exact Store.get_email h

/-- Releasing a key that was just acquired restores the lock table. -/
theorem releaseLock_acquired (locks : List JSString) (email : JSString)
    (h : email ∉ locks) : releaseLock (email :: locks) email = locks := by
  simp only [releaseLock, List.filter_cons, bne_self_eq_false, Bool.false_eq_true, if_false]
  rw [List.filter_eq_self]
  intro k hk
  have : k ≠ email := fun hke => h (hke ▸ hk)
  simpa using this

/-- With the sender's lock free, `handleEmailDetected` runs its `try` block and
leaves the lock table as it found it. -/
theorem handleEmailDetected_of_free (lower : JSString → JSString) (w : World)
    (emailData : EmailData) (env : DetectionEnv) (hfree : emailData.sender ∉ w.profileLocks) :
    handleEmailDetected lower w emailData env =
      { world :=
          { profileLocks := w.profileLocks
            senderProfiles := (detectionBody lower w.senderProfiles emailData env).1 }
        completion := (detectionBody lower w.senderProfiles emailData env).2.1
        statsPush := (detectionBody lower w.senderProfiles emailData env).2.2 } := by
  simp [handleEmailDetected, acquireLock, hfree, releaseLock_acquired]

/-- Category constants can be cloned. -/
theorem category_clonable (c : Category) : (Value.category c).clonable = true := by
  cases c <;> rfl

/-- Only truthy values cannot be cloned. -/
theorem clonable_of_not_truthy (v : Value) (h : v.truthy = false) : v.clonable = true := by
  cases v <;> first | rfl | (simp [Value.truthy] at h)

/-- The `try` block when both storage requests succeed, `mlResults` is not
`null` and the mutated record can be cloned. -/
theorem detectionBody_of_fields (lower : JSString → JSString) (db : Store)
    (emailData : EmailData) (env : DetectionEnv) (classification purpose topic sender_type
      confidence : Value)
    (hget : env.getFault = none) (hput : env.putFault = none)
    (hcls : classifyDetected lower emailData
        ((db.get emailData.sender).getD (defaultProfile emailData.sender env.created))
        env.remote = (classification, .fields purpose topic sender_type confidence))
    (hclone : (classification.clonable && (purpose.or classification).clonable &&
        topic.clonable && sender_type.clonable && confidence.clonable &&
        ((db.get emailData.sender).getD
          (defaultProfile emailData.sender env.created)).userOverride.clonable) = true) :
    detectionBody lower db emailData env =
      (db.put
        { (db.get emailData.sender).getD (defaultProfile emailData.sender env.created) with
          totalReceived :=
            ((db.get emailData.sender).getD
              (defaultProfile emailData.sender env.created)).totalReceived + 1
          lastInteraction := env.now
          classification := classification
          purpose := purpose.or classification
          topic := topic
          sender_type := sender_type
          confidence := confidence },
       .returned classification,
       some (((db.get emailData.sender).getD
          (defaultProfile emailData.sender env.created)).totalReceived == 0)) := by
  simp only [detectionBody, getSenderProfile, hget, hcls, mutateProfile, updateSenderProfile,
    hput, Profile.clonable, hclone, if_true]

/-- The `try` block when the storage is healthy and `mlResults` is not `null`
but the mutated record cannot be cloned: the write throws and nothing is
stored. -/
theorem detectionBody_of_unclonable (lower : JSString → JSString) (db : Store)
    (emailData : EmailData) (env : DetectionEnv) (classification purpose topic sender_type
      confidence : Value)
    (hget : env.getFault = none) (hput : env.putFault = none)
    (hcls : classifyDetected lower emailData
        ((db.get emailData.sender).getD (defaultProfile emailData.sender env.created))
        env.remote = (classification, .fields purpose topic sender_type confidence))
    (hclone : (classification.clonable && (purpose.or classification).clonable &&
        topic.clonable && sender_type.clonable && confidence.clonable &&
        ((db.get emailData.sender).getD
          (defaultProfile emailData.sender env.created)).userOverride.clonable) = false) :
    detectionBody lower db emailData env = (db, .threw .dataCloneError, none) := by
  simp only [detectionBody, getSenderProfile, hget, hcls, mutateProfile, updateSenderProfile,
    hput, Profile.clonable, hclone, Bool.false_eq_true, if_false]

/-! ## Detection handler -/

/-- With an override in the profile, the classification is the override and
`mlResults` keeps its initial value. -/
theorem classifyDetected_of_override (lower : JSString → JSString) (emailData : EmailData)
    (profile : Profile) (remote : RemoteOutcome) (h : profile.userOverride.truthy = true) :
    classifyDetected lower emailData profile remote =
      (profile.userOverride, .fields .null .null .null (.number 0)) := by
  simp [classifyDetected, h, MlResults.initial]

/-- Without an override, when the request or the parsing of its response
throws, the classification is the one of `classify` and `mlResults` keeps its
initial value. -/
theorem classifyDetected_of_failure (lower : JSString → JSString) (emailData : EmailData)
    (profile : Profile) (remote : RemoteOutcome) (h : profile.userOverride.truthy = false)
    (hfail : remote = .fetchRejected ∨ remote = .jsonRejected) :
    classifyDetected lower emailData profile remote =
      (classify lower emailData, .fields .null .null .null (.number 0)) := by
  rcases hfail with rfl | rfl <;> simp [classifyDetected, h, MlResults.initial]

/-- The value returned by `classify` is always truthy. -/
theorem classify_truthy (lower : JSString → JSString) (emailData : EmailData) :
    (classify lower emailData).truthy = true := by
  unfold classify
  simp only []
  split_ifs with h1 h2
  · exact h1
  · exact category_truthy _
  · exact category_truthy _

/-- The whole effect of a call that runs with the lock free, both storage
requests succeeding, `mlResults` not `null` and the mutated record clonable. -/
theorem handleEmailDetected_of_fields (lower : JSString → JSString) (w : World)
    (emailData : EmailData) (env : DetectionEnv) (classification purpose topic sender_type
      confidence : Value)
    (hfree : emailData.sender ∉ w.profileLocks)
    (hget : env.getFault = none) (hput : env.putFault = none)
    (hcls : classifyDetected lower emailData
        ((w.senderProfiles.get emailData.sender).getD
          (defaultProfile emailData.sender env.created))
        env.remote = (classification, .fields purpose topic sender_type confidence))
    (hclone : (classification.clonable && (purpose.or classification).clonable &&
        topic.clonable && sender_type.clonable && confidence.clonable &&
        ((w.senderProfiles.get emailData.sender).getD
          (defaultProfile emailData.sender env.created)).userOverride.clonable) = true) :
    handleEmailDetected lower w emailData env =
      { world :=
          { profileLocks := w.profileLocks
            senderProfiles := w.senderProfiles.put
              { (w.senderProfiles.get emailData.sender).getD
                  (defaultProfile emailData.sender env.created) with
                totalReceived :=
                  ((w.senderProfiles.get emailData.sender).getD
                    (defaultProfile emailData.sender env.created)).totalReceived + 1
                lastInteraction := env.now
                classification := classification
                purpose := purpose.or classification
                topic := topic
                sender_type := sender_type
                confidence := confidence } }
        completion := .returned classification
        statsPush := some (((w.senderProfiles.get emailData.sender).getD
          (defaultProfile emailData.sender env.created)).totalReceived == 0) } := by
  rw [handleEmailDetected_of_free lower w emailData env hfree,
    detectionBody_of_fields lower w.senderProfiles emailData env classification purpose topic
      sender_type confidence hget hput hcls hclone]

/-- The whole effect of a call that runs with the lock free and healthy
storage but whose mutated record cannot be cloned: the `DataCloneError` reaches
the caller and the state is left as it was. -/
theorem handleEmailDetected_of_unclonable (lower : JSString → JSString) (w : World)
    (emailData : EmailData) (env : DetectionEnv) (classification purpose topic sender_type
      confidence : Value)
    (hfree : emailData.sender ∉ w.profileLocks)
    (hget : env.getFault = none) (hput : env.putFault = none)
    (hcls : classifyDetected lower emailData
        ((w.senderProfiles.get emailData.sender).getD
          (defaultProfile emailData.sender env.created))
        env.remote = (classification, .fields purpose topic sender_type confidence))
    (hclone : (classification.clonable && (purpose.or classification).clonable &&
        topic.clonable && sender_type.clonable && confidence.clonable &&
        ((w.senderProfiles.get emailData.sender).getD
          (defaultProfile emailData.sender env.created)).userOverride.clonable) = false) :
    handleEmailDetected lower w emailData env =
      { world := w, completion := .threw .dataCloneError, statsPush := none } := by
  rw [handleEmailDetected_of_free lower w emailData env hfree,
    detectionBody_of_unclonable lower w.senderProfiles emailData env classification purpose
      topic sender_type confidence hget hput hcls hclone]

/-- The record written by such a call can be read back under the sender. -/
theorem get_put_fetched (db : Store) (email : JSString) (created : Nat) (n t : Nat)
    (c pu tp st co : Value) :
    (db.put
      { (db.get email).getD (defaultProfile email created) with
        totalReceived := n
        lastInteraction := t
        classification := c
        purpose := pu
        topic := tp
        sender_type := st
        confidence := co }).get email =
      some
        { (db.get email).getD (defaultProfile email created) with
          totalReceived := n
          lastInteraction := t
          classification := c
          purpose := pu
          topic := tp
          sender_type := st
          confidence := co } := by
  have h := Store.get_put_self db
    { (db.get email).getD (defaultProfile email created) with
      totalReceived := n
      lastInteraction := t
      classification := c
      purpose := pu
      topic := tp
      sender_type := st
      confidence := co }
  simp only [fetched_email] at h ⊢
  exact h

/-- C4. Override short-circuit: when the stored profile of the sender has
`userOverride` set to a category and the call runs (lock free, profile read and
write succeeding), `handleEmailDetected` returns the override, stores it as
the classification, and its whole effect is the same for every remote outcome,
subject, body, headers and lower-casing. -/
theorem override_short_circuit (lower : JSString → JSString) (w : World)
    (emailData : EmailData) (env : DetectionEnv) (p : Profile) (c : Category)
    (hfree : emailData.sender ∉ w.profileLocks)
    (hstored : w.senderProfiles.get emailData.sender = some p)
    (hover : p.userOverride = .category c)
    (hget : env.getFault = none) (hput : env.putFault = none) :
    (handleEmailDetected lower w emailData env).completion = .returned (.category c) ∧
    ((handleEmailDetected lower w emailData env).world.senderProfiles.get
        emailData.sender).map (fun q => q.classification) = some (.category c) ∧
    ∀ (lower2 : JSString → JSString) (subject body : JSString)
      (headers : Option (List (JSString × Value))) (remote : RemoteOutcome),
      handleEmailDetected lower2 w
          { emailData with subject := subject, body := body, headers := headers }
          { env with remote := remote } =
        handleEmailDetected lower w emailData env := by
  have htr : p.userOverride.truthy = true := by rw [hover]; exact category_truthy c
  have key : ∀ (lower2 : JSString → JSString) (subject body : JSString)
      (headers : Option (List (JSString × Value))) (remote : RemoteOutcome),
      handleEmailDetected lower2 w
          { emailData with subject := subject, body := body, headers := headers }
          { env with remote := remote } =
        { world :=
            { profileLocks := w.profileLocks
              senderProfiles := w.senderProfiles.put
                { p with
                  totalReceived := p.totalReceived + 1
                  lastInteraction := env.now
                  classification := .category c
                  purpose := Value.or .null (.category c)
                  topic := .null
                  sender_type := .null
                  confidence := .number 0 } }
          completion := .returned (.category c)
          statsPush := some (p.totalReceived == 0) } := by
    intro lower2 subject body headers remote
    have h := handleEmailDetected_of_fields lower2 w
      { emailData with subject := subject, body := body, headers := headers }
      { env with remote := remote } (.category c) .null .null .null (.number 0) hfree hget hput
      (by
        simp only [hstored, Option.getD_some]
        rw [classifyDetected_of_override _ _ _ _ htr, hover])
      (by
        simp only [hstored, Option.getD_some, hover, Value.or, category_clonable]
        rfl)
    simp only [hstored, Option.getD_some] at h
    exact h
  have hself := key lower emailData.subject emailData.body emailData.headers env.remote
  simp only at hself
  refine ⟨by rw [hself], ?_, ?_⟩
  · rw [hself]
    have hp : p.email = emailData.sender := Store.get_email hstored
    have := Store.get_put_self w.senderProfiles
      { p with
        totalReceived := p.totalReceived + 1
        lastInteraction := env.now
        classification := .category c
        purpose := Value.or .null (.category c)
        topic := .null
        sender_type := .null
        confidence := .number 0 }
    rw [← hp]
    simp only [this, Option.map_some']
  · intro lower2 subject body headers remote
    rw [key lower2 subject body headers remote, hself]

/-- Fallback on remote failure, where the classification can be stored: when
the sender has no override, the request or the parsing of its response throws
and `classify` returns a value that can be cloned, a call that runs (lock free,
database working) resolves with the classification of `classify` and persists
a profile whose `topic` and `sender_type` are `null` and whose `confidence` is
0. -/
theorem remote_failure_fallback (lower : JSString → JSString) (w : World)
    (emailData : EmailData) (env : DetectionEnv)
    (hfree : emailData.sender ∉ w.profileLocks)
    (hget : env.getFault = none) (hput : env.putFault = none)
    (hover : ((w.senderProfiles.get emailData.sender).getD
        (defaultProfile emailData.sender env.created)).userOverride.truthy = false)
    (hfail : env.remote = .fetchRejected ∨ env.remote = .jsonRejected)
    (hclone : (classify lower emailData).clonable = true) :
    (handleEmailDetected lower w emailData env).completion =
      .returned (classify lower emailData) ∧
    ∃ q, (handleEmailDetected lower w emailData env).world.senderProfiles.get
        emailData.sender = some q ∧
      q.classification = classify lower emailData ∧
      q.topic = .null ∧ q.sender_type = .null ∧ q.confidence = .number 0 := by
  have h := handleEmailDetected_of_fields lower w emailData env (classify lower emailData)
    .null .null .null (.number 0) hfree hget hput
    (classifyDetected_of_failure lower emailData _ env.remote hover hfail)
    (by
      have hor : Value.or .null (classify lower emailData) = classify lower emailData := by
        simp [Value.or, Value.truthy]
      rw [hor, hclone, clonable_of_not_truthy _ hover]
      rfl)
  rw [h]
  refine ⟨rfl, _, get_put_fetched _ _ _ _ _ _ _ _ _ _, rfl, rfl, rfl, rfl⟩

/-- A call resolves along one path only: the lock was free, both storage
requests succeeded, `mlResults` was not `null` and the mutated record could be
cloned. Its effect is then determined by the values of `classification` and
`mlResults`. -/
theorem handleEmailDetected_resolved (lower : JSString → JSString) (w : World)
    (emailData : EmailData) (env : DetectionEnv)
    (h : (handleEmailDetected lower w emailData env).completion.isReturned = true) :
    ∃ cls pu tp st co,
      classifyDetected lower emailData
        ((w.senderProfiles.get emailData.sender).getD
          (defaultProfile emailData.sender env.created))
        env.remote = (cls, .fields pu tp st co) ∧
      handleEmailDetected lower w emailData env =
        { world :=
            { profileLocks := w.profileLocks
              senderProfiles := w.senderProfiles.put
                { (w.senderProfiles.get emailData.sender).getD
                    (defaultProfile emailData.sender env.created) with
                  totalReceived :=
                    ((w.senderProfiles.get emailData.sender).getD
                      (defaultProfile emailData.sender env.created)).totalReceived + 1
                  lastInteraction := env.now
                  classification := cls
                  purpose := pu.or cls
                  topic := tp
                  sender_type := st
                  confidence := co } }
          completion := .returned cls
          statsPush := some (((w.senderProfiles.get emailData.sender).getD
            (defaultProfile emailData.sender env.created)).totalReceived == 0) } := by
  by_cases hfree : emailData.sender ∈ w.profileLocks
  · simp [handleEmailDetected, acquireLock, hfree, Completion.isReturned] at h
  · cases hget : env.getFault with
    | some err =>
      rw [handleEmailDetected_of_free lower w emailData env hfree] at h
      simp [detectionBody, getSenderProfile, hget, Completion.isReturned] at h
    | none =>
      cases hcls : classifyDetected lower emailData
        ((w.senderProfiles.get emailData.sender).getD
          (defaultProfile emailData.sender env.created)) env.remote with
      | mk cls ml =>
        cases ml with
        | null =>
          rw [handleEmailDetected_of_free lower w emailData env hfree] at h
          simp [detectionBody, getSenderProfile, hget, hcls, mutateProfile,
            Completion.isReturned] at h
        | fields pu tp st co =>
          cases hput : env.putFault with
          | some err =>
            rw [handleEmailDetected_of_free lower w emailData env hfree] at h
            simp [detectionBody, getSenderProfile, hget, hcls, mutateProfile,
              updateSenderProfile, hput, Completion.isReturned] at h
          | none =>
            cases hclone : (cls.clonable && (pu.or cls).clonable && tp.clonable &&
              st.clonable && co.clonable &&
              ((w.senderProfiles.get emailData.sender).getD
                (defaultProfile emailData.sender env.created)).userOverride.clonable) with
            | false =>
              rw [handleEmailDetected_of_unclonable lower w emailData env cls pu tp st co
                hfree hget hput hcls hclone] at h
              simp [Completion.isReturned] at h
            | true =>
              exact ⟨cls, pu, tp, st, co, rfl,
                handleEmailDetected_of_fields lower w emailData env cls pu tp st co hfree
                  hget hput hcls hclone⟩

/-- C5 at a failing input. For the unseen sender `x@constructor` with the
request rejected, a free lock and a working database, `classify` returns the
function inherited from `Object.prototype`; the profile write cannot clone it,
so the call rejects with a `DataCloneError` and persists nothing. -/
theorem remote_failure_unclonable (lower : JSString → JSString) :
    inheritedKeyEvent.sender ∉ World.empty.profileLocks ∧
    ((World.empty.senderProfiles.get inheritedKeyEvent.sender).getD
      (defaultProfile inheritedKeyEvent.sender 200)).userOverride = .undefined ∧
    classify lower inheritedKeyEvent = .inherited (js "constructor") ∧
    (handleEmailDetected lower World.empty inheritedKeyEvent
      (calmEnv .fetchRejected)).completion = .threw .dataCloneError ∧
    (handleEmailDetected lower World.empty inheritedKeyEvent
      (calmEnv .fetchRejected)).world.senderProfiles = [] := by
  have hc : classify lower inheritedKeyEvent = .inherited (js "constructor") := by
    rw [classify_of_lookup_truthy lower _ (by decide)]
    decide
  have h := handleEmailDetected_of_unclonable lower World.empty inheritedKeyEvent
    (calmEnv .fetchRejected) (classify lower inheritedKeyEvent) .null .null .null (.number 0)
    (by decide) rfl rfl
    (classifyDetected_of_failure lower inheritedKeyEvent _ _ (by decide) (Or.inl rfl))
    (by rw [hc]; decide)
  rw [h]
  exact ⟨by decide, by decide, hc, rfl, rfl⟩

/-- C10, as amended. After a call that resolves, for an event for which the
remote classifier was not consulted (override set) or failed (the request or
the parsing of its response threw), the persisted profile has `topic` and
`sender_type` unset (`null`), while `purpose` is not unset: it is the override
value when an override is set and the classification of `classify` otherwise,
the same value that the call returns. -/
theorem remote_only_fields (lower : JSString → JSString) (w : World)
    (emailData : EmailData) (env : DetectionEnv)
    (hres : (handleEmailDetected lower w emailData env).completion.isReturned = true)
    (hpath : ((w.senderProfiles.get emailData.sender).getD
        (defaultProfile emailData.sender env.created)).userOverride.truthy = true ∨
      env.remote = .fetchRejected ∨ env.remote = .jsonRejected) :
    ∃ q, (handleEmailDetected lower w emailData env).world.senderProfiles.get
        emailData.sender = some q ∧
      q.topic = .null ∧ q.sender_type = .null ∧
      q.purpose =
        (if ((w.senderProfiles.get emailData.sender).getD
            (defaultProfile emailData.sender env.created)).userOverride.truthy then
          ((w.senderProfiles.get emailData.sender).getD
            (defaultProfile emailData.sender env.created)).userOverride
         else classify lower emailData) ∧
      q.purpose ≠ .null ∧
      (handleEmailDetected lower w emailData env).completion = .returned q.purpose := by
  obtain ⟨cls, pu, tp, st, co, hcls, heq⟩ :=
    handleEmailDetected_resolved lower w emailData env hres
  have hform : cls =
      (if ((w.senderProfiles.get emailData.sender).getD
          (defaultProfile emailData.sender env.created)).userOverride.truthy then
        ((w.senderProfiles.get emailData.sender).getD
          (defaultProfile emailData.sender env.created)).userOverride
       else classify lower emailData) ∧
      cls.truthy = true ∧ pu = .null ∧ tp = .null ∧ st = .null := by
    by_cases hov : ((w.senderProfiles.get emailData.sender).getD
        (defaultProfile emailData.sender env.created)).userOverride.truthy = true
    · rw [classifyDetected_of_override lower emailData _ env.remote hov] at hcls
      simp only [Prod.mk.injEq, MlResults.fields.injEq] at hcls
      obtain ⟨h1, h2, h3, h4, _⟩ := hcls
      refine ⟨?_, ?_, h2.symm, h3.symm, h4.symm⟩
      · simp only [hov, if_true]
        exact h1.symm
      · rw [← h1]
        exact hov
    · have hfail : env.remote = .fetchRejected ∨ env.remote = .jsonRejected := by
        rcases hpath with h | h
        · exact absurd h hov
        · exact h
      rw [classifyDetected_of_failure lower emailData _ env.remote (by simpa using hov)
        hfail] at hcls
      simp only [Prod.mk.injEq, MlResults.fields.injEq] at hcls
      obtain ⟨h1, h2, h3, h4, _⟩ := hcls
      refine ⟨?_, ?_, h2.symm, h3.symm, h4.symm⟩
      · simp only [hov, Bool.false_eq_true, if_false]
        exact h1.symm
      · rw [← h1]
        exact classify_truthy lower emailData
  obtain ⟨hcl, htruthy, hpu, htp, hst⟩ := hform
  subst hpu htp hst
  have hor : Value.or .null cls = cls := by simp [Value.or, Value.truthy]
  rw [heq]
  refine ⟨_, get_put_fetched _ _ _ _ _ _ _ _ _ _, rfl, rfl, ?_, ?_, ?_⟩
  · simp only [hor]
    exact hcl
  · simp only [hor]
    intro hnull
    rw [hnull] at htruthy
    simp [Value.truthy] at htruthy
  · simp only [hor]

/-- C8. Unconditional lock release: a call of `handleEmailDetected` that has
acquired the sender's lock ends, for every outcome of its awaited steps, with
the lock not held and the lock table as it was before; a failing profile
read is propagated, and so is a failing profile write. -/
theorem lock_released (lower : JSString → JSString) (w : World)
    (emailData : EmailData) (env : DetectionEnv)
    (hfree : emailData.sender ∉ w.profileLocks) :
    emailData.sender ∉ (handleEmailDetected lower w emailData env).world.profileLocks ∧
    (handleEmailDetected lower w emailData env).world.profileLocks = w.profileLocks ∧
    (handleEmailDetected lower w emailData env).completion ≠ .pending ∧
    (∀ err, env.getFault = some err →
      (handleEmailDetected lower w emailData env).completion = .threw err) ∧
    (∀ err, env.getFault = none → env.remote ≠ .parsed .null → env.putFault = some err →
      (handleEmailDetected lower w emailData env).completion = .threw err) := by
  rw [handleEmailDetected_of_free lower w emailData env hfree]
  refine ⟨hfree, rfl, ?_, ?_, ?_⟩
  · simp only [detectionBody]
    repeat' split
    all_goals simp
  · intro err hget
    simp [detectionBody, getSenderProfile, hget]
  · intro err hget hremote hput
    have hml : ∃ cls pu tp st co, classifyDetected lower emailData
        ((w.senderProfiles.get emailData.sender).getD
          (defaultProfile emailData.sender env.created)) env.remote =
          (cls, .fields pu tp st co) := by
      unfold classifyDetected
      split
      · exact ⟨_, _, _, _, _, rfl⟩
      · split
        · exact ⟨_, _, _, _, _, rfl⟩
        · exact ⟨_, _, _, _, _, rfl⟩
        · rename_i h
          exact absurd h hremote
        · exact ⟨_, _, _, _, _, rfl⟩
    obtain ⟨cls, pu, tp, st, co, hcls⟩ := hml
    simp [detectionBody, getSenderProfile, hget, hcls, mutateProfile, updateSenderProfile, hput]


/-- Instance of C4: after `setOverride("x@y.com", "Work")`, a detection event
from `x@y.com` whose remote classifier answers Spam is classified Work, and
Work is stored. -/
theorem override_short_circuit_witness :
    promoEvent.sender ∉ overrideWorld.profileLocks ∧
    (handleEmailDetected asciiLower overrideWorld promoEvent
      (calmEnv (.parsed (.fields (.string (js "Spam")) .null .null .null)))).completion =
      .returned (.category .Work) ∧
    ((handleEmailDetected asciiLower overrideWorld promoEvent
      (calmEnv (.parsed (.fields (.string (js "Spam")) .null .null .null)))).world.senderProfiles.get
        promoEvent.sender).map (fun q => q.classification) = some (.category .Work) :=
  have h := override_short_circuit asciiLower overrideWorld promoEvent
    (calmEnv (.parsed (.fields (.string (js "Spam")) .null .null .null)))
    { defaultProfile (js "x@y.com") 100 with userOverride := .category .Work } .Work
    (by decide) (by decide) rfl rfl rfl
  ⟨by decide, h.1, h.2.1⟩

/-- An instance of the fallback: an unseen sender, the request rejected. -/
theorem remote_failure_fallback_witness :
    promoEvent.sender ∉ World.empty.profileLocks ∧
    (handleEmailDetected asciiLower World.empty promoEvent (calmEnv .fetchRejected)).completion =
      .returned (classify asciiLower promoEvent) ∧
    ∃ q, (handleEmailDetected asciiLower World.empty promoEvent
        (calmEnv .fetchRejected)).world.senderProfiles.get promoEvent.sender = some q ∧
      q.classification = classify asciiLower promoEvent ∧
      q.topic = .null ∧ q.sender_type = .null ∧ q.confidence = .number 0 :=
  have h := remote_failure_fallback asciiLower World.empty promoEvent (calmEnv .fetchRejected)
    (by decide) rfl rfl (by decide) (Or.inl rfl) (by decide)
  ⟨by decide, h.1, h.2⟩

/-- C10 fails as stated: after a call whose remote request was rejected, and
after a call that was short-circuited by an override, the persisted `purpose`
is the classification (Personal, respectively Work), not `null`. -/
theorem remote_only_fields_counterexample :
    ((handleEmailDetected asciiLower World.empty promoEvent
        (calmEnv .fetchRejected)).world.senderProfiles.get promoEvent.sender).map
      (fun q => (q.purpose, q.topic, q.sender_type)) =
      some (.category .Personal, .null, .null) ∧
    ((handleEmailDetected asciiLower overrideWorld promoEvent
        (calmEnv .fetchRejected)).world.senderProfiles.get promoEvent.sender).map
      (fun q => (q.purpose, q.topic, q.sender_type)) =
      some (.category .Work, .null, .null) ∧
    Value.category .Personal ≠ .null ∧ Value.category .Work ≠ .null := by
  decide

/-- Instance of C10 as amended: an unseen sender, the request rejected; the
persisted purpose is the classification of `classify`, Personal. -/
theorem remote_only_fields_witness :
    (handleEmailDetected asciiLower World.empty promoEvent
      (calmEnv .fetchRejected)).completion.isReturned = true ∧
    ∃ q, (handleEmailDetected asciiLower World.empty promoEvent
        (calmEnv .fetchRejected)).world.senderProfiles.get promoEvent.sender = some q ∧
      q.topic = .null ∧ q.sender_type = .null ∧
      q.purpose = .category .Personal ∧
      q.purpose ≠ .null ∧
      (handleEmailDetected asciiLower World.empty promoEvent
        (calmEnv .fetchRejected)).completion = .returned q.purpose :=
  ⟨by decide,
    remote_only_fields asciiLower World.empty promoEvent (calmEnv .fetchRejected)
      (by decide) (Or.inr (Or.inl rfl))⟩

/-- Instance of C8: the profile write is rejected; the lock is released and
the storage error reaches the caller. -/
theorem lock_released_witness :
    promoEvent.sender ∉ World.empty.profileLocks ∧
    promoEvent.sender ∉
      (handleEmailDetected asciiLower World.empty promoEvent putFailsEnv).world.profileLocks ∧
    (handleEmailDetected asciiLower World.empty promoEvent putFailsEnv).completion =
      .threw (.storage 7) :=
  have h := lock_released asciiLower World.empty promoEvent putFailsEnv (by decide)
  ⟨by decide, h.1, h.2.2.2.2 (.storage 7) rfl (by decide) rfl⟩

/-! ## Action handler -/

/-- The function `handlePerformAction` never touches the lock table. -/
theorem handlePerformAction_locks (w : World) (data : ActionData) (env : ActionEnv) :
    (handlePerformAction w data env).1.profileLocks = w.profileLocks := by
  unfold handlePerformAction
  split
  · rfl
  · dsimp only
    split <;> rfl

/-- The function `handlePerformAction` never waits. -/
theorem handlePerformAction_not_pending (w : World) (data : ActionData) (env : ActionEnv) :
    (handlePerformAction w data env).2 ≠ .pending := by
  unfold handlePerformAction
  split
  · simp
  · dsimp only
    split <;> simp

/-- C9 at a failing input. While a detection call holds the lock of `x@y.com`,
a detection call for that sender waits, but `handlePerformAction` for that
sender neither waits nor takes the lock: it reads, mutates and writes the
profile with the lock table untouched. When the detection call that holds the
lock then writes the profile it had read, the `lastAction` and `unsubscribed`
set by the action are lost. -/
theorem performAction_ignores_lock :
    (handleEmailDetected asciiLower lockedWorld promoEvent (calmEnv .fetchRejected)).completion =
      .pending ∧
    (handlePerformAction lockedWorld unsubscribeAction calmActionEnv).2 = .returned true ∧
    (handlePerformAction lockedWorld unsubscribeAction calmActionEnv).1.profileLocks =
      [js "x@y.com"] ∧
    (((handlePerformAction lockedWorld unsubscribeAction calmActionEnv).1.senderProfiles.get
        (js "x@y.com")).map (fun q => (q.lastAction, q.unsubscribed))) =
      some (.string (js "UNSUBSCRIBE"), .bool true) ∧
    (match actionDuringDetection asciiLower [] promoEvent (calmEnv .fetchRejected)
        unsubscribeAction calmActionEnv with
      | .ok db => (db.get (js "x@y.com")).map (fun q => (q.lastAction, q.unsubscribed))
      | .error _ => none) = some (.undefined, .undefined) := by
  decide


/-! ## Per-sender counting -/

/-- The counter of the profile handed out by `getSenderProfile`. -/
theorem fetched_totalReceived (db : Store) (email : JSString) (now : Nat) :
    ((db.get email).getD (defaultProfile email now)).totalReceived = receivedCount db email := by
  unfold receivedCount
  cases db.get email <;> rfl

/-- A call that resolves pushes the flag computed from the counter it read and
leaves the counter one higher. -/
theorem handleEmailDetected_returned (lower : JSString → JSString) (w : World)
    (emailData : EmailData) (env : DetectionEnv)
    (h : (handleEmailDetected lower w emailData env).completion.isReturned = true) :
    (handleEmailDetected lower w emailData env).statsPush =
      some (receivedCount w.senderProfiles emailData.sender == 0) ∧
    receivedCount (handleEmailDetected lower w emailData env).world.senderProfiles
      emailData.sender = receivedCount w.senderProfiles emailData.sender + 1 := by
  obtain ⟨cls, pu, tp, st, co, _, heq⟩ := handleEmailDetected_resolved lower w emailData env h
  rw [heq]
  refine ⟨?_, ?_⟩
  · simp only [fetched_totalReceived]
  · simp only [receivedCount, get_put_fetched, Option.map_some', Option.getD_some]
    rw [fetched_totalReceived]
    rfl

/-- Once the counter is positive every flag is false. -/
theorem flagsFrom_succ (prior n : Nat) :
    flagsFrom (prior + 1) n = List.replicate n (some false) := by
  induction n generalizing prior with
  | zero => rfl
  | succ n ih => simp [flagsFrom, List.replicate_succ, ih]

/-- Consecutive resolving calls for one sender raise its counter by their
number and push the flags of `flagsFrom`. -/
theorem handleAll_counting (lower : JSString → JSString) (sender : JSString) :
    ∀ (calls : List (EmailData × DetectionEnv)) (w : World),
      (∀ call ∈ calls, call.1.sender = sender) →
      (∀ d ∈ handleAll lower w calls, d.completion.isReturned = true) →
      receivedCount (finalWorld w (handleAll lower w calls)).senderProfiles sender =
        receivedCount w.senderProfiles sender + calls.length ∧
      (handleAll lower w calls).map (fun d => d.statsPush) =
        flagsFrom (receivedCount w.senderProfiles sender) calls.length := by
  intro calls
  induction calls with
  | nil => intro w _ _; exact ⟨rfl, rfl⟩
  | cons call rest ih =>
    intro w hsender hok
    obtain ⟨emailData, env⟩ := call
    have hs : emailData.sender = sender := hsender (emailData, env) (List.mem_cons_self _ _)
    have hfirst := handleEmailDetected_returned lower w emailData env
      (hok _ (by simp [handleAll]))
    rw [hs] at hfirst
    have hrest := ih (handleEmailDetected lower w emailData env).world
      (fun c hc => hsender c (List.mem_cons_of_mem _ hc))
      (fun d hd => hok d (by simp [handleAll, hd]))
    simp only [handleAll, finalWorld, List.map_cons, List.length_cons, flagsFrom]
    refine ⟨?_, ?_⟩
    · rw [hrest.1, hfirst.2]
      omega
    · rw [hrest.2, hfirst.1, hfirst.2]

/-- C7. Per-sender counting: after N ≥ 1 detection events for one sender have
been processed one after the other, each resolving, the stored profile's
`totalReceived` is its prior value (0 for an unseen sender) plus N; and when
the prior value is 0, the first call pushes `isNewSender = true` and every
later one pushes `false`. -/
theorem per_sender_counting (lower : JSString → JSString) (sender : JSString) (w : World)
    (calls : List (EmailData × DetectionEnv))
    (hne : calls ≠ [])
    (hsender : ∀ call ∈ calls, call.1.sender = sender)
    (hok : ∀ d ∈ handleAll lower w calls, d.completion.isReturned = true) :
    ((finalWorld w (handleAll lower w calls)).senderProfiles.get sender).map
        (fun p => p.totalReceived) =
      some (receivedCount w.senderProfiles sender + calls.length) ∧
    (receivedCount w.senderProfiles sender = 0 →
      (handleAll lower w calls).map (fun d => d.statsPush) =
        some true :: List.replicate (calls.length - 1) (some false)) := by
  have h := handleAll_counting lower sender calls w hsender hok
  have hlen : 0 < calls.length := List.length_pos.2 hne
  refine ⟨?_, ?_⟩
  · have h1 := h.1
    unfold receivedCount at h1
    cases hg : (finalWorld w (handleAll lower w calls)).senderProfiles.get sender with
    | none =>
      rw [hg] at h1
      simp only [Option.map_none', Option.getD_none] at h1
      omega
    | some p =>
      rw [hg] at h1
      simp only [Option.map_some', Option.getD_some] at h1
      simp only [Option.map_some', h1, receivedCount]
  · intro hzero
    rw [h.2, hzero]
    obtain ⟨n, hn⟩ : ∃ n, calls.length = n + 1 := ⟨calls.length - 1, by omega⟩
    rw [hn]
    simp [flagsFrom, flagsFrom_succ]

/-- Instance of C7: two events for the unseen sender `x@y.com`; the counter
ends at 2 and only the first call pushes `true`. -/
theorem per_sender_counting_witness :
    twoCalls ≠ [] ∧
    (∀ call ∈ twoCalls, call.1.sender = js "x@y.com") ∧
    (∀ d ∈ handleAll asciiLower World.empty twoCalls, d.completion.isReturned = true) ∧
    ((finalWorld World.empty (handleAll asciiLower World.empty twoCalls)).senderProfiles.get
        (js "x@y.com")).map (fun p => p.totalReceived) = some 2 ∧
    (handleAll asciiLower World.empty twoCalls).map (fun d => d.statsPush) =
      [some true, some false] :=
  have h := per_sender_counting asciiLower (js "x@y.com") World.empty twoCalls
    (by decide) (by decide) (by decide)
  ⟨by decide, by decide, by decide, h.1, h.2 (by decide)⟩


/-! ## Stats queue -/

/-- Applying one more increment at the end of a list. -/
theorem applyAll_append (s : Stats) (flags : List Bool) (b : Bool) :
    applyAll s (flags ++ [b]) = bump (some (applyAll s flags)) b := by
  simp [applyAll, List.foldl_append]

/-- Applying a list of increments that starts with `b`. -/
theorem applyAll_cons (s : Stats) (flags : List Bool) (b : Bool) :
    applyAll s (b :: flags) = applyAll (bump (some s) b) flags := rfl

/-- A read of an absent snapshot counts from the zero default. -/
theorem bump_stored (a : Aggregator) (b : Bool) : bump a.stored b = bump (some a.snapshot) b := by
  cases h : a.stored <;> simp [bump, Aggregator.snapshot, h]

/-- The counters after a list of increments. -/
theorem applyAll_counts (flags : List Bool) :
    ∀ s : Stats, applyAll s flags =
      { emailsAnalyzed := s.emailsAnalyzed + flags.length
        sendersGrouped := s.sendersGrouped + flags.count true } := by
  induction flags with
  | nil => intro s; rfl
  | cons b flags ih =>
    intro s
    rw [applyAll_cons, ih]
    cases b
    · simp [bump]
      omega
    · simp [bump]
      omega

/-- Applying two lists of increments in a row. -/
theorem applyAll_applyAll (s : Stats) (xs ys : List Bool) :
    applyAll (applyAll s xs) ys = applyAll s (xs ++ ys) := by
  simp [applyAll, List.foldl_append]

/-- One event keeps the discipline of the flag, and moves the projected
snapshot by exactly the increment it enqueues, if any. -/
theorem Aggregator.step_inv (a a1 : Aggregator) (ev : AggEvent) (hinv : a.Inv)
    (hstep : a.step ev = some a1) :
    a1.Inv ∧ a1.projected = applyAll a.projected (enqueued [ev]) := by
  obtain ⟨flag, queue, stored, workers⟩ := a
  rcases hinv with ⟨hflag, hlen⟩ | ⟨hflag, hworkers, hqueue⟩
  · -- an activation is in flight
    simp only at hflag hlen
    subst hflag
    match workers, hlen with
    | [wk], _ =>
      cases ev with
      | enqueue b =>
        simp only [Aggregator.step, Aggregator.enqueue, updateStatsSequentially,
          if_true, Option.some.injEq] at hstep
        subst hstep
        refine ⟨Or.inl ⟨rfl, rfl⟩, ?_⟩
        cases wk <;> simp only [Aggregator.projected, enqueued, applyAll_append] <;> rfl
      | resume i =>
        cases i with
        | succ i => simp [Aggregator.step, Aggregator.resume] at hstep
        | zero =>
          cases wk with
          | awaitingGet b =>
            simp only [Aggregator.step, Aggregator.resume, List.getElem?_cons_zero,
              Option.some.injEq] at hstep
            subst hstep
            exact ⟨Or.inl ⟨rfl, rfl⟩, rfl⟩
          | awaitingSet stats =>
            simp only [Aggregator.step, Aggregator.resume, List.getElem?_cons_zero,
              Option.some.injEq] at hstep
            subst hstep
            cases queue with
            | nil =>
              exact ⟨Or.inr ⟨rfl, rfl, rfl⟩, rfl⟩
            | cons b rest =>
              refine ⟨Or.inl ⟨rfl, rfl⟩, ?_⟩
              simp [updateStatsSequentially, Aggregator.projected, enqueued, applyAll, bump]
  · -- idle
    simp only at hflag hworkers hqueue
    subst hflag hworkers hqueue
    cases ev with
    | enqueue b =>
      simp only [Aggregator.step, Aggregator.enqueue, updateStatsSequentially,
        Option.some.injEq] at hstep
      subst hstep
      refine ⟨Or.inl ⟨rfl, rfl⟩, ?_⟩
      simp only [Aggregator.projected, enqueued, applyAll_cons, List.nil_append, List.append_nil]
      have := bump_stored ⟨false, [], stored, []⟩ b
      simp only at this
      simp only [Bool.false_eq_true, if_false, this]
      rfl
    | resume i => simp [Aggregator.step, Aggregator.resume] at hstep

/-- The increments enqueued by a schedule that starts with `ev`. -/
theorem enqueued_cons (ev : AggEvent) (rest : List AggEvent) :
    enqueued (ev :: rest) = enqueued [ev] ++ enqueued rest := by
  cases ev <;> rfl

/-- A schedule of storage completions enqueues nothing. -/
theorem enqueued_replicate_resume (k i : Nat) :
    enqueued (List.replicate k (AggEvent.resume i)) = [] := by
  induction k with
  | zero => rfl
  | succ k ih => simpa [List.replicate_succ, enqueued] using ih

/-- A schedule keeps the discipline of the flag, and moves the projected
snapshot by exactly the increments it enqueues. -/
theorem Aggregator.run_inv (events : List AggEvent) :
    ∀ (a a1 : Aggregator), a.Inv → a.run events = some a1 →
      a1.Inv ∧ a1.projected = applyAll a.projected (enqueued events) := by
  induction events with
  | nil =>
    intro a a1 hinv hrun
    simp only [Aggregator.run, Option.some.injEq] at hrun
    subst hrun
    exact ⟨hinv, rfl⟩
  | cons ev rest ih =>
    intro a a1 hinv hrun
    simp only [Aggregator.run] at hrun
    cases hstep : a.step ev with
    | none => simp [hstep] at hrun
    | some a2 =>
      simp only [hstep] at hrun
      obtain ⟨hinv2, hproj2⟩ := Aggregator.step_inv a a2 ev hinv hstep
      obtain ⟨hinv1, hproj1⟩ := ih a2 a1 hinv2 hrun
      refine ⟨hinv1, ?_⟩
      rw [hproj1, hproj2, applyAll_applyAll, ← enqueued_cons]

/-- In a drained state the projected snapshot is the stored one. -/
theorem Aggregator.projected_of_drained (a : Aggregator) (h : a.Drained) :
    a.projected = a.snapshot := by
  obtain ⟨hq, hw⟩ := h
  simp [Aggregator.projected, hq, hw, applyAll]

/-- Running two schedules in a row. -/
theorem Aggregator.run_append (xs ys : List AggEvent) :
    ∀ a : Aggregator, a.run (xs ++ ys) = (a.run xs).bind (fun a1 => a1.run ys) := by
  induction xs with
  | nil => intro a; rfl
  | cons ev rest ih =>
    intro a
    simp only [List.cons_append, Aggregator.run]
    cases a.step ev with
    | none => rfl
    | some a2 => exact ih a2

/-- From a state in which the activation awaits its write, letting the
activation run drains the queue. -/
theorem Aggregator.drain_from_set (queue : List Bool) :
    ∀ (stored : Option Stats) (stats : Stats),
      ∃ k a1, (Aggregator.mk true queue stored [.awaitingSet stats]).run
          (List.replicate k (.resume 0)) = some a1 ∧ a1.Drained := by
  induction queue with
  | nil =>
    intro stored stats
    exact ⟨1, ⟨false, [], some stats, []⟩, rfl, rfl, rfl⟩
  | cons b rest ih =>
    intro stored stats
    obtain ⟨k, a1, hrun, hdr⟩ := ih (some stats) (bump (some stats) b)
    refine ⟨k + 2, a1, ?_, hdr⟩
    rw [show List.replicate (k + 2) (AggEvent.resume 0) =
      [.resume 0, .resume 0] ++ List.replicate k (.resume 0) by
        simp [List.replicate_succ]]
    rw [Aggregator.run_append]
    exact hrun

/-- From every state that keeps the discipline of the flag, letting the
suspended activation run drains the queue. -/
theorem Aggregator.drain (a : Aggregator) (hinv : a.Inv) :
    ∃ k a1, a.run (List.replicate k (.resume 0)) = some a1 ∧ a1.Drained := by
  obtain ⟨flag, queue, stored, workers⟩ := a
  rcases hinv with ⟨hflag, hlen⟩ | ⟨hflag, hworkers, hqueue⟩
  · simp only at hflag hlen
    subst hflag
    match workers, hlen with
    | [.awaitingSet stats], _ => exact Aggregator.drain_from_set queue stored stats
    | [.awaitingGet b], _ =>
      obtain ⟨k, a1, hrun, hdr⟩ := Aggregator.drain_from_set queue stored (bump stored b)
      refine ⟨k + 1, a1, ?_, hdr⟩
      rw [List.replicate_succ]
      exact hrun
  · simp only at hflag hworkers hqueue
    subst hflag hworkers hqueue
    exact ⟨0, _, rfl, rfl, rfl⟩

/-- C6. Stats correctness: run any schedule of enqueued increments and storage
completions from the start-up state over any stored snapshot. Whenever the
queue is drained, `emailsAnalyzed` has grown by exactly the number of
increments enqueued and `sendersGrouped` by exactly the number of those with
`isNewSender = true`; and from every state the schedule reaches, letting the
worker run does drain the queue, with these same counts. -/
theorem stats_correctness (stored : Option Stats) (events : List AggEvent) (a : Aggregator)
    (hrun : (Aggregator.initial stored).run events = some a) :
    (a.Drained →
      a.snapshot =
        { emailsAnalyzed :=
            (Aggregator.initial stored).snapshot.emailsAnalyzed + (enqueued events).length
          sendersGrouped :=
            (Aggregator.initial stored).snapshot.sendersGrouped +
              (enqueued events).count true }) ∧
    ∃ k a1, a.run (List.replicate k (.resume 0)) = some a1 ∧ a1.Drained ∧
      a1.snapshot =
        { emailsAnalyzed :=
            (Aggregator.initial stored).snapshot.emailsAnalyzed + (enqueued events).length
          sendersGrouped :=
            (Aggregator.initial stored).snapshot.sendersGrouped +
              (enqueued events).count true } := by
  have hinit : (Aggregator.initial stored).Inv := Or.inr ⟨rfl, rfl, rfl⟩
  have hproj0 : (Aggregator.initial stored).projected = (Aggregator.initial stored).snapshot :=
    Aggregator.projected_of_drained _ ⟨rfl, rfl⟩
  obtain ⟨hinv, hproj⟩ := Aggregator.run_inv events _ a hinit hrun
  rw [hproj0, applyAll_counts] at hproj
  refine ⟨?_, ?_⟩
  · intro hdr
    rw [← Aggregator.projected_of_drained a hdr, hproj]
  · obtain ⟨k, a1, hrun1, hdr1⟩ := Aggregator.drain a hinv
    refine ⟨k, a1, hrun1, hdr1, ?_⟩
    obtain ⟨_, hproj1⟩ := Aggregator.run_inv _ a a1 hinv hrun1
    rw [enqueued_replicate_resume] at hproj1
    rw [← Aggregator.projected_of_drained a1 hdr1, hproj1, hproj]
    rfl

/-- Instance of C6: over the snapshot (3, 1), three increments, two of them
for new senders, interleaved with the worker; the drained snapshot is
(6, 3). -/
theorem stats_correctness_witness :
    (Aggregator.initial (some { emailsAnalyzed := 3, sendersGrouped := 1 })).run mixedSchedule =
      some { isUpdatingStats := false, statsQueue := [],
             stored := some { emailsAnalyzed := 6, sendersGrouped := 3 }, workers := [] } ∧
    (Aggregator.mk false [] (some { emailsAnalyzed := 6, sendersGrouped := 3 }) []).snapshot =
      { emailsAnalyzed := 3 + 3, sendersGrouped := 1 + 2 } :=
  ⟨by decide,
    (stats_correctness (some { emailsAnalyzed := 3, sendersGrouped := 1 }) mixedSchedule
      { isUpdatingStats := false, statsQueue := [],
        stored := some { emailsAnalyzed := 6, sendersGrouped := 3 }, workers := [] }
      (by decide)).1 ⟨rfl, rfl⟩⟩

/-! ## Remote responses -/

/-- Without an override, a body that parses to a value other than `null` is
taken as it is: its `purpose` becomes the classification. -/
theorem classifyDetected_of_parsed (lower : JSString → JSString) (emailData : EmailData)
    (profile : Profile) (purpose topic sender_type confidence : Value)
    (h : profile.userOverride.truthy = false) :
    classifyDetected lower emailData profile
        (.parsed (.fields purpose topic sender_type confidence)) =
      (purpose, .fields purpose topic sender_type confidence) := by
  simp [classifyDetected, h]

/-- C11 at a failing input. For the unseen sender `x@y.com`, a response whose
body parses to an object without `purpose` (an error reply) does not reach the
`catch` block: the call resolves with the classification `undefined`, while
`classify` gives Personal for the event. A body that parses to `null` does
reach the `catch` block, but the read of `mlResults.purpose` after it throws a
`TypeError` to the caller. -/
theorem error_response_not_fallback :
    ((World.empty.senderProfiles.get promoEvent.sender).getD
      (defaultProfile promoEvent.sender 200)).userOverride.truthy = false ∧
    (handleEmailDetected asciiLower World.empty promoEvent
      (calmEnv (.parsed errorBody))).completion = .returned .undefined ∧
    classify asciiLower promoEvent = .category .Personal ∧
    Value.undefined ≠ .category .Personal ∧
    (handleEmailDetected asciiLower World.empty promoEvent
      (calmEnv (.parsed .null))).completion = .threw .typeError := by
  decide

/-! ## Scoring without an unsubscribe phrase, and malformed senders -/

/-- Without an unsubscribe phrase the scoring always selects Personal. -/
theorem winner_of_no_unsubscribe (f : Features) (h : f.hasUnsubscribe = false) :
    CLASSIFICATION_TYPES (winner (adjust f)) = .Personal := by
  rw [← adjust_canon]
  have h1 := winner_table f.hasUnsubscribe f.hasPromoKeywords f.hasTransactionalKeywords
    (decide (f.length > 500))
  simp only [decide_eq_true_eq, h] at h1
  simp only [Features.canon, h]
  exact h1

/-- When the domain lookup finds nothing, the header signal is absent and the
lowercased content has no unsubscribe phrase, `classify` returns Personal,
whatever keywords the content has and whatever its length. -/
theorem classify_of_no_unsubscribe (lower : JSString → JSString) (emailData : EmailData)
    (hmap : domainMapGet (splitAt1 emailData.sender) = .undefined)
    (hsig : headerSignal emailData.headers RULES.HEADER_SIGNALS.LIST_UNSUBSCRIBE = false)
    (hphrase : (extractFeatures lower emailData).hasUnsubscribe = false) :
    classify lower emailData = .category .Personal := by
  rw [classify_of_scoring lower emailData hmap hsig, winner_of_no_unsubscribe _ hphrase]

/-- The worked example: promotional keywords without an unsubscribe phrase
give Promotion the score 0.1 + 0.5 = 0.6 against 0.7 for Personal, and
`classify` returns Personal. -/
theorem worked_example_scores :
    (extractFeatures asciiLower workedExample).hasPromoKeywords = true ∧
    (extractFeatures asciiLower workedExample).hasUnsubscribe = false ∧
    (adjust (extractFeatures asciiLower workedExample)).PROMOTION = F64.lit 6 10 ∧
    (adjust (extractFeatures asciiLower workedExample)).PERSONAL = F64.lit 7 10 ∧
    F64.lit 6 10 < F64.lit 7 10 ∧
    classify asciiLower workedExample = .category .Personal := by
  decide

/-- C12 at a failing input. The sender domain `toString` is not a key of the
domain table, there is no `List-Unsubscribe` header and the content has no
unsubscribe phrase, yet `classify` returns the member inherited from
`Object.prototype` instead of Personal. -/
theorem classify_no_unsubscribe_inherited_key (lower : JSString → JSString) :
    splitAt1 inheritedKeyPromoEvent.sender = some (js "toString") ∧
    RULES.DOMAIN_MAP.lookup (js "toString") = none ∧
    headerSignal inheritedKeyPromoEvent.headers RULES.HEADER_SIGNALS.LIST_UNSUBSCRIBE
      = false ∧
    (extractFeatures asciiLower inheritedKeyPromoEvent).hasUnsubscribe = false ∧
    classify lower inheritedKeyPromoEvent = .inherited (js "toString") ∧
    classify lower inheritedKeyPromoEvent ≠ .category .Personal := by
  have h : classify lower inheritedKeyPromoEvent = .inherited (js "toString") := by
    rw [classify_of_lookup_truthy lower _ (by decide)]
    decide
  refine ⟨by decide, by decide, by decide, by decide, h, ?_⟩
  rw [h]
  decide

/-- C13. Malformed sender falls through: for a sender without `@` the domain
is `undefined`, which is no key of the domain table and finds nothing in the
lookup, and `classify` returns a category. When the headers hold a truthy
value under `List-Unsubscribe` that category is Subscription; when they hold
none it is the documented argmax of the scores of the content. The result is
the same for every sender without `@`. -/
theorem classify_malformed_sender (lower : JSString → JSString) (emailData : EmailData)
    (hno : atSign ∉ emailData.sender) :
    RULES.DOMAIN_MAP.lookup (propertyKey (splitAt1 emailData.sender)) = none ∧
    domainMapGet (splitAt1 emailData.sender) = .undefined ∧
    (∀ (hs : List (JSString × Value)) (v : Value), emailData.headers = some hs →
      hs.lookup (js "List-Unsubscribe") = some v → v.truthy = true →
      classify lower emailData = .category .Subscription) ∧
    ((∀ (hs : List (JSString × Value)) (v : Value), emailData.headers = some hs →
        hs.lookup (js "List-Unsubscribe") = some v → v.truthy = false) →
      (specArgmax (extractFeatures lower emailData)).map Value.category =
        some (classify lower emailData)) ∧
    (∃ c : Category, classify lower emailData = .category c) ∧
    ∀ sender2 : JSString, atSign ∉ sender2 →
      classify lower { emailData with sender := sender2 } = classify lower emailData := by
  have hmap : ∀ s : JSString, atSign ∉ s → domainMapGet (splitAt1 s) = .undefined := by
    intro s hs
    rw [splitAt1_of_no_at s hs]
    decide
  have hval : ∀ e : EmailData, atSign ∉ e.sender →
      classify lower e =
        (if headerSignal e.headers RULES.HEADER_SIGNALS.LIST_UNSUBSCRIBE then
          .category .Subscription
         else .category (CLASSIFICATION_TYPES (winner (adjust (extractFeatures lower e))))) := by
    intro e he
    cases hsig : headerSignal e.headers RULES.HEADER_SIGNALS.LIST_UNSUBSCRIBE
    · rw [classify_of_scoring lower e (hmap _ he) hsig]
      simp
    · rw [classify_of_header lower e (hmap _ he) hsig]
      simp
  refine ⟨?_, hmap _ hno, ?_, ?_, ?_, ?_⟩
  · rw [splitAt1_of_no_at _ hno]
    decide
  · intro hs v hh hl hv
    apply classify_of_header lower emailData (hmap _ hno)
    have hl2 : hs.lookup RULES.HEADER_SIGNALS.LIST_UNSUBSCRIBE = some v := hl
    simp only [headerSignal, hh, hl2, hv]
  · intro hnone
    apply classify_of_scoring_eq_specArgmax lower emailData (hmap _ hno)
    unfold headerSignal
    cases hh : emailData.headers with
    | none => rfl
    | some hs =>
      simp only
      cases hl : hs.lookup RULES.HEADER_SIGNALS.LIST_UNSUBSCRIBE with
      | none => rfl
      | some v => exact hnone hs v hh hl
  · rw [hval _ hno]
    split
    · exact ⟨_, rfl⟩
    · exact ⟨_, rfl⟩
  · intro sender2 h2
    rw [hval _ hno, hval { emailData with sender := sender2 } h2]
    rfl

/-- Instance of C13: the sender text `Unknown` with a `List-Unsubscribe`
header gives Subscription; the empty sender without header, with an
unsubscribe phrase and promotional wording, gives the argmax Promotion, and
so does every other sender without `@`. -/
theorem classify_malformed_sender_witness :
    atSign ∉ unknownSenderWithHeader.sender ∧
    classify asciiLower unknownSenderWithHeader = .category .Subscription ∧
    atSign ∉ emptySenderPromo.sender ∧
    (specArgmax (extractFeatures asciiLower emptySenderPromo)).map Value.category =
      some (classify asciiLower emptySenderPromo) ∧
    classify asciiLower emptySenderPromo = .category .Promotion ∧
    classify asciiLower { emptySenderPromo with sender := js "Unknown" } =
      classify asciiLower emptySenderPromo :=
  have h1 := classify_malformed_sender asciiLower unknownSenderWithHeader (by decide)
  have h2 := classify_malformed_sender asciiLower emptySenderPromo (by decide)
  ⟨by decide,
    h1.2.2.1 _ (.string (js "<mailto:leave@lists.example>")) rfl (by decide) (by decide),
    by decide,
    h2.2.2.2.1 (fun hs v hh hl => by
      have hhs : hs = [] := (Option.some.inj hh).symm
      subst hhs
      simp at hl),
    by decide,
    h2.2.2.2.2.2 (js "Unknown") (by decide)⟩

end GmailCleaner
